/-
Verification of the zenith-image-generator plugin (astrbot_plugin_llm_draw_plus).

This file gives a shallow embedding, in Lean 4, of the pure computational core of
the plugin:

 * the response parser of `ttp.call_flow2api` (JSON / SSE / regex URL extraction),
 * the model-name suffixing helpers (`ttp.get_model_suffix` and its call sites),
 * the provider dispatcher `ttp.generate_image` (network effects abstracted into
   an explicit oracle record),
 * `main._check_permission`, `main._get_next_api`, and the parameter
   normalisation / result classification logic of `main._generate_core`.

Python dynamic values are modelled by an explicit JSON value type; Python
exceptions that the source code routes into its catch-all handlers are modelled
by `Except String`; the exact wording of exception messages (which the source
interpolates from Python runtime errors) is approximated by fixed strings, since
no property below depends on that wording.  Network and filesystem effects are
inputs (the `Oracle` structure): a run of `generate_image` is a pure function of
its arguments and of what the network returned.
-/
import Mathlib

namespace Zenith

/-! ## Basic character / string utilities mirroring Python semantics -/

/-- Python whitespace for `str.strip` / `\s` (ASCII part; the source only ever
meets ASCII whitespace here). -/
def isPyWs (c : Char) : Bool :=
  c = ' ' || c = '\t' || c = '\n' || c = '\r' || c = '\x0b' || c = '\x0c'

/-- ASCII lower-casing, mirroring `str.lower` on the ASCII inputs the plugin uses. -/
def lowerC (c : Char) : Char :=
  if 'A' ≤ c && c ≤ 'Z' then Char.ofNat (c.toNat + 32) else c

/-- ASCII upper-casing, mirroring `str.upper`. -/
def upperC (c : Char) : Char :=
  if 'a' ≤ c && c ≤ 'z' then Char.ofNat (c.toNat - 32) else c

def lowerL (cs : List Char) : List Char := cs.map lowerC

def upperL (cs : List Char) : List Char := cs.map upperC

def lowerS (s : String) : String := (lowerL s.data).asString

def upperS (s : String) : String := (upperL s.data).asString

/-- `str.strip()` (no argument): drop leading and trailing whitespace. -/
def pyStripL (cs : List Char) : List Char :=
  ((cs.dropWhile isPyWs).reverse.dropWhile isPyWs).reverse

def pyStrip (s : String) : String := (pyStripL s.data).asString

/-- Substring containment, mirroring Python's `needle in haystack` on strings. -/
def isSubL (needle hay : List Char) : Bool :=
  match hay with
  | [] => needle.isEmpty
  | _ :: t => needle.isPrefixOf hay || isSubL needle t

def isSubS (needle hay : String) : Bool := isSubL needle.data hay.data

/-- `str.startswith(pre)` (list-based so that proofs can evaluate it). -/
def startsW (pre s : String) : Bool := pre.data.isPrefixOf s.data

/-- `str.endswith(suf)`. -/
def endsW (suf s : String) : Bool := suf.data.reverse.isPrefixOf s.data.reverse

/-- `c in s` for a single character. -/
def containsC (c : Char) (s : String) : Bool := s.data.contains c

/-- `s[:n]`. -/
def takeS (n : Nat) (s : String) : String := (s.data.take n).asString

/-- Line terminators recognised by Python's `str.splitlines`. -/
def isLineBreak (c : Char) : Bool :=
  c = '\n' || c = '\r' || c = '\x0b' || c = '\x0c' || c = '\x1c' || c = '\x1d' ||
  c = '\x1e' || c = '\x85' || c = ' ' || c = ' '

/-- `str.splitlines()`: split at line boundaries (`\r\n` counts as one), with no
trailing empty segment for a terminal line break. -/
def splitLinesL : List Char → List Char → List (List Char)
  | acc, [] => if acc.isEmpty then [] else [acc.reverse]
  | acc, '\r' :: '\n' :: r => acc.reverse :: splitLinesL [] r
  | acc, c :: r =>
    if isLineBreak c then acc.reverse :: splitLinesL [] r else splitLinesL (c :: acc) r

def splitLines (s : String) : List (List Char) := splitLinesL [] s.data

/-! ## JSON values, mirroring what `json.loads` produces -/

/-- Decoded JSON values.  Numbers keep their source lexeme (no claim below
inspects numeric values beyond truthiness).  Objects are association lists in
source order; on duplicate keys, lookup takes the last binding, which is what
`json.loads` (last key wins) produces. -/
inductive JVal where
  | jnull
  | jbool (b : Bool)
  | jnum (raw : String)
  | jstr (s : String)
  | jarr (xs : List JVal)
  | jobj (kvs : List (String × JVal))
instance : Inhabited JVal := ⟨.jnull⟩

mutual

/-- Structural equality of JSON values, mirroring Python `==` on decoded
JSON trees of the shapes the plugin meets. -/
def beqJ : JVal → JVal → Bool
  | .jnull, .jnull => true
  | .jbool a, .jbool b => a == b
  | .jnum a, .jnum b => a == b
  | .jstr a, .jstr b => a == b
  | .jarr a, .jarr b => beqJList a b
  | .jobj a, .jobj b => beqJPairs a b
  | _, _ => false

def beqJList : List JVal → List JVal → Bool
  | [], [] => true
  | a :: as, b :: bs => beqJ a b && beqJList as bs
  | _, _ => false

def beqJPairs : List (String × JVal) → List (String × JVal) → Bool
  | [], [] => true
  | (ka, va) :: as, (kb, vb) :: bs => ka == kb && beqJ va vb && beqJPairs as bs
  | _, _ => false

end

instance : BEq JVal := ⟨beqJ⟩

/-- Dictionary lookup with Python `json.loads` duplicate-key semantics: the last
binding of a key wins. -/
def jlookup (kvs : List (String × JVal)) (k : String) : Option JVal :=
  kvs.foldl (fun acc p => if p.1 = k then some p.2 else acc) none

/-- Python truthiness of a decoded JSON value (`if value:`). -/
def jTruthy : JVal → Bool
  | .jnull => false
  | .jbool b => b
  | .jnum raw =>
    -- a JSON number is falsy iff it is zero, i.e. every mantissa digit is 0
    (raw.data.takeWhile (fun c => c ≠ 'e' && c ≠ 'E')).any (fun c => c.isDigit && c ≠ '0')
  | .jstr s => !(s == "")
  | .jarr xs => !xs.isEmpty
  | .jobj kvs => !kvs.isEmpty

/-! ## A `json.loads` embedding

Recursive-descent parser over the character list, with a fuel argument to make
termination syntactic.  It follows the strict JSON grammar that Python's
`json.loads` accepts: the four JSON whitespace characters between tokens,
strings with the standard escapes and no raw control characters, numbers
`-?(0|[1-9][0-9]*)(.[0-9]+)?([eE][+-]?[0-9]+)?`, and full consumption of the
input. -/

def isJsonWs (c : Char) : Bool := c = ' ' || c = '\t' || c = '\n' || c = '\r'

def skipWs (cs : List Char) : List Char := cs.dropWhile isJsonWs

def hexVal (c : Char) : Option Nat :=
  let n := c.toNat
  if 48 ≤ n && n ≤ 57 then some (n - 48)
  else if 97 ≤ n && n ≤ 102 then some (n - 87)
  else if 65 ≤ n && n ≤ 70 then some (n - 55)
  else none

/-- Parse the body of a JSON string (the opening quote already consumed). -/
def parseJStr (fuel : Nat) (acc : List Char) (cs : List Char) :
    Option (String × List Char) :=
  match fuel, cs with
  | 0, _ => none
  | _, [] => none
  | fuel + 1, c :: r =>
    if c = '"' then some (acc.reverse.asString, r)
    else if c = '\\' then
      match r with
      | [] => none
      | e :: r2 =>
        if e = '"' then parseJStr fuel ('"' :: acc) r2
        else if e = '\\' then parseJStr fuel ('\\' :: acc) r2
        else if e = '/' then parseJStr fuel ('/' :: acc) r2
        else if e = 'n' then parseJStr fuel ('\n' :: acc) r2
        else if e = 't' then parseJStr fuel ('\t' :: acc) r2
        else if e = 'r' then parseJStr fuel ('\r' :: acc) r2
        else if e = 'b' then parseJStr fuel ('\x08' :: acc) r2
        else if e = 'f' then parseJStr fuel ('\x0c' :: acc) r2
        else if e = 'u' then
          match r2 with
          | h1 :: h2 :: h3 :: h4 :: r3 =>
            match hexVal h1, hexVal h2, hexVal h3, hexVal h4 with
            | some a, some b, some c3, some d =>
              parseJStr fuel (Char.ofNat (((a * 16 + b) * 16 + c3) * 16 + d) :: acc) r3
            | _, _, _, _ => none
          | _ => none
        else none
    else if c.toNat < 0x20 then none
    else parseJStr fuel (c :: acc) r

def isDigitC (c : Char) : Bool := '0' ≤ c && c ≤ '9'

/-- Parse a JSON number lexeme starting at `cs`; returns the lexeme and the rest. -/
def parseJNum (cs : List Char) : Option (String × List Char) :=
  let (sign, cs1) := match cs with
    | '-' :: r => (['-'], r)
    | _ => (([] : List Char), cs)
  let intPart := cs1.takeWhile isDigitC
  if intPart.isEmpty then none
  else if intPart.length > 1 && intPart.headI = '0' then none
  else
    let cs2 := cs1.drop intPart.length
    let (frac, cs3) := match cs2 with
      | '.' :: r =>
        let ds := r.takeWhile isDigitC
        if ds.isEmpty then (([] : List Char), cs2) else ('.' :: ds, r.drop ds.length)
      | _ => (([] : List Char), cs2)
    let (ex, cs4) := match cs3 with
      | e :: r =>
        if e = 'e' || e = 'E' then
          let (es, r2) := match r with
            | s :: r3 => if s = '+' || s = '-' then ([e, s], r3) else ([e], r)
            | [] => ([e], r)
          let ds := r2.takeWhile isDigitC
          if ds.isEmpty then (([] : List Char), cs3) else (es ++ ds, r2.drop ds.length)
        else (([] : List Char), cs3)
      | [] => (([] : List Char), cs3)
    some ((sign ++ intPart ++ frac ++ ex).asString, cs4)

mutual

/-- Parse one JSON value (leading whitespace skipped here). -/
def parseJVal (fuel : Nat) (cs : List Char) : Option (JVal × List Char) :=
  match fuel with
  | 0 => none
  | fuel + 1 =>
    match skipWs cs with
    | [] => none
    | c :: r =>
      if c = '{' then parseJObj fuel true [] r
      else if c = '[' then parseJArr fuel true [] r
      else if c = '"' then
        match parseJStr fuel [] r with
        | some (s, rest) => some (.jstr s, rest)
        | none => none
      else if c = 't' then
        match r with
        | 'r' :: 'u' :: 'e' :: rest => some (.jbool true, rest)
        | _ => none
      else if c = 'f' then
        match r with
        | 'a' :: 'l' :: 's' :: 'e' :: rest => some (.jbool false, rest)
        | _ => none
      else if c = 'n' then
        match r with
        | 'u' :: 'l' :: 'l' :: rest => some (.jnull, rest)
        | _ => none
      else
        match parseJNum (c :: r) with
        | some (s, rest) => some (.jnum s, rest)
        | none => none

/-- Parse the members of a JSON object (the `{` already consumed).
`first` is true before any member has been parsed. -/
def parseJObj (fuel : Nat) (first : Bool) (acc : List (String × JVal)) (cs : List Char) :
    Option (JVal × List Char) :=
  match fuel with
  | 0 => none
  | fuel + 1 =>
    match skipWs cs with
    | [] => none
    | c :: r =>
      if c = '}' && first then some (.jobj acc.reverse, r)
      else
        let csK := if first then c :: r else
          match c :: r with
          | ',' :: r2 => skipWs r2
          | _ => []
        match csK with
        | '"' :: rk =>
          match parseJStr fuel [] rk with
          | some (k, rest) =>
            match skipWs rest with
            | ':' :: rv =>
              match parseJVal fuel rv with
              | some (v, rest2) =>
                match skipWs rest2 with
                | '}' :: r3 => some (.jobj ((k, v) :: acc).reverse, r3)
                | ',' :: r3 => parseJObj fuel false ((k, v) :: acc) (',' :: r3)
                | _ => none
              | none => none
            | _ => none
          | none => none
        | _ => none

/-- Parse the elements of a JSON array (the `[` already consumed). -/
def parseJArr (fuel : Nat) (first : Bool) (acc : List JVal) (cs : List Char) :
    Option (JVal × List Char) :=
  match fuel with
  | 0 => none
  | fuel + 1 =>
    match skipWs cs with
    | [] => none
    | c :: r =>
      if c = ']' && first then some (.jarr acc.reverse, r)
      else
        let csE := if first then c :: r else
          match c :: r with
          | ',' :: r2 => r2
          | _ => []
        match parseJVal fuel csE with
        | some (v, rest) =>
          match skipWs rest with
          | ']' :: r3 => some (.jarr (v :: acc).reverse, r3)
          | ',' :: r3 => parseJArr fuel false (v :: acc) (',' :: r3)
          | _ => none
        | none => none

end

/-- `json.loads` on a character list: parse one value and require that only
whitespace remains. -/
def loadsL (cs : List Char) : Option JVal :=
  match parseJVal (2 * cs.length + 4) cs with
  | some (j, rest) => if (skipWs rest).isEmpty then some j else none
  | none => none

/-- `json.loads` on a string. -/
def loads (s : String) : Option JVal := loadsL s.data

/-! ## Python dynamic attribute / item access on decoded JSON values

These helpers mirror how CPython treats the operations the source performs on
decoded JSON.  Where CPython would raise (TypeError / AttributeError /
KeyError), they produce `Except.error` with a fixed message; in
`call_flow2api` such exceptions reach the outer handler and surface as an
`"Exception: ..."` return value.  The message text is an approximation of the
interpreter's (no claim depends on its wording). -/

mutual

/-- Approximation of Python `repr` on a decoded JSON value. -/
def pyRepr : JVal → String
  | .jnull => "None"
  | .jbool true => "True"
  | .jbool false => "False"
  | .jnum raw => raw
  | .jstr s => "\x27" ++ s ++ "\x27"
  | .jarr xs => "[" ++ pyReprList xs ++ "]"
  | .jobj kvs => "\x7b" ++ pyReprPairs kvs ++ "\x7d"

def pyReprList : List JVal → String
  | [] => ""
  | [x] => pyRepr x
  | x :: xs => pyRepr x ++ ", " ++ pyReprList xs

def pyReprPairs : List (String × JVal) → String
  | [] => ""
  | [(k, v)] => "\x27" ++ k ++ "\x27: " ++ pyRepr v
  | (k, v) :: kvs => "\x27" ++ k ++ "\x27: " ++ pyRepr v ++ ", " ++ pyReprPairs kvs

end

/-- Approximation of Python `str` on a decoded JSON value (used by f-strings). -/
def pyStr : JVal → String
  | .jstr s => s
  | v => pyRepr v

/-- Python `needle in container` for a string needle. -/
def pyContains (v : JVal) (needle : String) : Except String Bool :=
  match v with
  | .jobj kvs => .ok (jlookup kvs needle).isSome
  | .jarr xs => .ok (xs.contains (.jstr needle))
  | .jstr s => .ok (isSubS needle s)
  | _ => .error "argument of type is not iterable"

/-- Python `len(container)`. -/
def pyLen (v : JVal) : Except String Nat :=
  match v with
  | .jarr xs => .ok xs.length
  | .jstr s => .ok s.length
  | .jobj kvs => .ok ((kvs.map Prod.fst).dedup.length)
  | _ => .error "object has no len"

/-- Python `container[key]` for a string key. -/
def pySubscript (v : JVal) (k : String) : Except String JVal :=
  match v with
  | .jobj kvs =>
    match jlookup kvs k with
    | some x => .ok x
    | none => .error ("KeyError: " ++ k)
  | .jstr _ => .error "string indices must be integers"
  | .jarr _ => .error "list indices must be integers"
  | _ => .error "object is not subscriptable"

/-- Python `container[0]`. -/
def pyIndex0 (v : JVal) : Except String JVal :=
  match v with
  | .jarr (x :: _) => .ok x
  | .jarr [] => .error "list index out of range"
  | .jstr s =>
    match s.data with
    | c :: _ => .ok (.jstr (String.mk [c]))
    | [] => .error "string index out of range"
  | .jobj _ => .error "KeyError: 0"
  | _ => .error "object is not subscriptable"

/-- Python `container[-1]`. -/
def pyIndexLast (v : JVal) : Except String JVal :=
  match v with
  | .jarr (x :: xs) => .ok ((x :: xs).getLast (by simp))
  | .jarr [] => .error "list index out of range"
  | .jstr s =>
    match h : s.data with
    | c :: cs => .ok (.jstr (String.mk [(c :: cs).getLast (by simp)]))
    | [] => .error "string index out of range"
  | .jobj _ => .error "KeyError: -1"
  | _ => .error "object is not subscriptable"

/-- Python `value.get(key, default)`: only dictionaries have `.get`. -/
def dictGet (v : JVal) (k : String) (dflt : JVal) : Except String JVal :=
  match v with
  | .jobj kvs => .ok ((jlookup kvs k).getD dflt)
  | _ => .error "object has no attribute get"

/-- Marker used where the source would hand a non-string decoded value to a
string consumer; in `generate_image` this ends in the same error-accumulation
path as a textual error result, so a fixed marker string is faithful for every
property below. -/
def pyStrOrMarker (v : JVal) : String :=
  match v with
  | .jstr s => s
  | _ => "Exception: non-string value"

/-! ## The three `re.search` patterns of `call_flow2api`

Hand-rolled matchers with Python `re` semantics (leftmost match; `.` does not
match a newline; lazy `*?` takes the shortest extension; greedy `+` the
longest), specialised to the three concrete patterns of the source. -/

/-- After `https?://` has matched, take the lazy capture of
`(https?://.*?)\)`: the shortest run of non-newline characters up to `)`. -/
def mdUrlBody (acc : List Char) : List Char → Option (List Char)
  | [] => none
  | c :: r =>
    if c = ')' then some acc.reverse
    else if c = '\n' then none
    else mdUrlBody (c :: acc) r

/-- Match `https?://` at the head, returning the matched prefix and the rest. -/
def httpPrefix (cs : List Char) : Option (List Char × List Char) :=
  if ['h', 't', 't', 'p', 's', ':', '/', '/'].isPrefixOf cs then
    some (['h', 't', 't', 'p', 's', ':', '/', '/'], cs.drop 8)
  else if ['h', 't', 't', 'p', ':', '/', '/'].isPrefixOf cs then
    some (['h', 't', 't', 'p', ':', '/', '/'], cs.drop 7)
  else none

/-- Try `(https?://.*?)\)` at the head of `cs`. -/
def mdUrlCapture (cs : List Char) : Option (List Char) :=
  match httpPrefix cs with
  | some (pre, rest) =>
    match mdUrlBody [] rest with
    | some body => some (pre ++ body)
    | none => none
  | none => none

/-- After `![` has matched, search for `.*?\]\((https?://.*?)\)`: the lazy
`.*?` extends over non-newline characters; at each `](` the URL capture is
attempted, and on failure the `](` is absorbed and the scan continues. -/
def mdAfterBang : List Char → Option (List Char)
  | [] => none
  | c :: r =>
    if c = '\n' then none
    else if c = ']' then
      match r with
      | '(' :: r2 =>
        match mdUrlCapture r2 with
        | some u => some u
        | none => mdAfterBang r
      | _ => mdAfterBang r
    else mdAfterBang r

/-- `re.search(r'!\[.*?\]\((https?://.*?)\)', fc)`: the captured URL of the
leftmost Markdown image link. -/
def mdSearchL : List Char → Option (List Char)
  | [] => none
  | '!' :: '[' :: r =>
    match mdAfterBang r with
    | some u => some u
    | none => mdSearchL ('[' :: r)
  | _ :: t => mdSearchL t

def mdSearch (s : String) : Option String := (mdSearchL s.data).map List.asString

/-- Character class `[^'"]` of the video pattern. -/
def notQuote (c : Char) : Bool := c ≠ '\x27' && c ≠ '"'

/-- Try `src=['"](https?://[^'"]+)['"]` at the head of `cs`. -/
def vidSrcCheck (cs : List Char) : Option (List Char) :=
  if ['s', 'r', 'c', '='].isPrefixOf cs then
    match cs.drop 4 with
    | q :: r =>
      if q = '\x27' || q = '"' then
        match httpPrefix r with
        | some (pre, rest) =>
          let run := rest.takeWhile notQuote
          if run.isEmpty then none
          else
            match rest.drop run.length with
            | q2 :: _ => if q2 = '\x27' || q2 = '"' then some (pre ++ run) else none
            | [] => none
        | none => none
      else none
    | [] => none
  else none

/-- Greedy `[^>]+` before `src=`: try the longest run first, then backtrack.
`k` counts down the number of class characters consumed. -/
def vidTrySplits (rest : List Char) : Nat → Option (List Char)
  | 0 => none
  | k + 1 =>
    match vidSrcCheck (rest.drop (k + 1)) with
    | some u => some u
    | none => vidTrySplits rest k

/-- `re.search(r"<video[^>]+src=['\"](https?://[^'\"]+)['\"]", fc)`. -/
def videoSearchL : List Char → Option (List Char)
  | [] => none
  | c :: t =>
    if ['<', 'v', 'i', 'd', 'e', 'o'].isPrefixOf (c :: t) then
      let rest := (c :: t).drop 6
      let maxRun := rest.takeWhile (fun ch => ch ≠ '>')
      match vidTrySplits rest maxRun.length with
      | some u => some u
      | none => videoSearchL t
    else videoSearchL t

def videoSearch (s : String) : Option String := (videoSearchL s.data).map List.asString

/-- Character class `[^\s)"'<>]` of the bare-URL pattern. -/
def urlChar (c : Char) : Bool :=
  !isPyWs c && c ≠ ')' && c ≠ '"' && c ≠ '\x27' && c ≠ '<' && c ≠ '>'

/-- `re.search(r'(https?://[^\s)"\'<>]+)', fc)`: the leftmost URL, extended
greedily over the character class (at least one class character required). -/
def urlSearchL : List Char → Option (List Char)
  | [] => none
  | c :: t =>
    match httpPrefix (c :: t) with
    | some (pre, rest) =>
      let run := rest.takeWhile urlChar
      if run.isEmpty then urlSearchL t else some (pre ++ run)
    | none => urlSearchL t

def urlSearch (s : String) : Option String := (urlSearchL s.data).map List.asString

/-! ## `call_flow2api` response handling (ttp.py lines 132-224)

The network part of `call_flow2api` (temporary file, curl subprocess, logging)
has no influence on the returned value beyond producing the stripped stdout
text, a curl failure, or an exception; it is abstracted into `CurlOutcome`.
Everything from `full_content = ""` (line 132) on is embedded directly. -/

/-- The `choices` branch of the single-JSON case (ttp.py lines 144-156). -/
def choicesBranch (cv : JVal) : Except String (Sum String JVal) :=
  match pyIndex0 cv with
  | .error e => .error e
  | .ok c0 =>
    match dictGet c0 "message" (.jobj []) with
    | .error e => .error e
    | .ok message =>
      match dictGet message "content" (.jstr "") with
      | .error e => .error e
      | .ok content =>
        let fcv := if jTruthy content then content else .jstr ""
        match dictGet message "images" (.jarr []) with
        | .error e => .error e
        | .ok images =>
          if jTruthy images then
            match pyLen images with
            | .error e => .error e
            | .ok n =>
              if n > 0 then
                match pyIndexLast images with
                | .error e => .error e
                | .ok lastImg =>
                  match dictGet lastImg "image_url" (.jobj []) with
                  | .error e => .error e
                  | .ok iu =>
                    match dictGet iu "url" .jnull with
                    | .error e => .error e
                    | .ok u =>
                      if jTruthy u then .ok (.inl (pyStrOrMarker u))
                      else .ok (.inr fcv)
              else .ok (.inr fcv)
          else .ok (.inr fcv)

/-- The DALL-E style `data` branch of the single-JSON case (ttp.py lines 159-162). -/
def dataBranch (dj : JVal) : Except String (Sum String JVal) :=
  match pyContains dj "data" with
  | .error e => .error e
  | .ok hasD =>
    if hasD then
      match pySubscript dj "data" with
      | .error e => .error e
      | .ok dv =>
        match pyLen dv with
        | .error e => .error e
        | .ok n =>
          if n > 0 then
            match pyIndex0 dv with
            | .error e => .error e
            | .ok d0 =>
              match dictGet d0 "url" .jnull with
              | .error e => .error e
              | .ok u =>
                if jTruthy u then .ok (.inl (pyStrOrMarker u))
                else .ok (.inr (.jstr ""))
          else .ok (.inr (.jstr ""))
    else .ok (.inr (.jstr ""))

/-- The single-JSON case of the parser (ttp.py lines 135-162), on a
successfully decoded value.  `.inl` is an early `return`; `.inr` carries the
value assigned to `full_content` (`.jstr ""` when nothing was assigned). -/
def jsonStepVal (dj : JVal) : Except String (Sum String JVal) :=
  match pyContains dj "error" with
  | .error e => .error e
  | .ok true =>
    match pySubscript dj "error" with
    | .error e => .error e
    | .ok ev =>
      match ev with
      | .jobj ekvs =>
        match jlookup ekvs "message" with
        | some m => .ok (.inl ("Error from API: " ++ pyStr m))
        | none => .ok (.inl ("Error from API: " ++ pyStr ev))
      | _ => .ok (.inl ("Error from API: " ++ pyStr ev))
  | .ok false =>
    match pyContains dj "choices" with
    | .error e => .error e
    | .ok hasCh =>
      if hasCh then
        match pySubscript dj "choices" with
        | .error e => .error e
        | .ok cv =>
          match pyLen cv with
          | .error e => .error e
          | .ok n => if n > 0 then choicesBranch cv else dataBranch dj
      else dataBranch dj

/-- Step 1 of the parser on the raw body: try `json.loads`; a decode failure
moves on with empty `full_content`; an exception inside the decoded-value
handling reaches the outer handler (`return f"Exception: {e}"`). -/
def jsonStep (txt : String) : Sum String JVal :=
  match loads txt with
  | none => .inr (.jstr "")
  | some dj =>
    match jsonStepVal dj with
    | .error e => .inl ("Exception: " ++ e)
    | .ok r => r

/-- The `reasoning_content` handling of an SSE chunk (ttp.py lines 189-193). -/
def reasoningStep (fc : String) (delta : JVal) : Except String (Sum String String) :=
  match dictGet delta "reasoning_content" (.jstr "") with
  | .error e => .error e
  | .ok r =>
    if jTruthy r then
      match pyContains r "❌" with
      | .error e => .error e
      | .ok b1 =>
        if b1 then .ok (.inr (fc ++ "\n[Reasoning Error]: " ++ pyStr r))
        else
          match pyContains r "Error" with
          | .error e => .error e
          | .ok b2 =>
            if b2 then .ok (.inr (fc ++ "\n[Reasoning Error]: " ++ pyStr r))
            else
              match pyContains r "失败" with
              | .error e => .error e
              | .ok b3 =>
                if b3 then .ok (.inr (fc ++ "\n[Reasoning Error]: " ++ pyStr r))
                else .ok (.inr fc)
    else .ok (.inr fc)

/-- Processing of one decoded SSE chunk (ttp.py lines 175-193).  `.inl` is an
early `return`; `.inr` the updated `full_content`. -/
def sseChunk (fc : String) (ch : JVal) : Except String (Sum String String) :=
  match pyContains ch "choices" with
  | .error e => .error e
  | .ok hasCh =>
    if hasCh then
      match pySubscript ch "choices" with
      | .error e => .error e
      | .ok cv =>
        match pyLen cv with
        | .error e => .error e
        | .ok n =>
          if n > 0 then
            match pyIndex0 cv with
            | .error e => .error e
            | .ok c0 =>
              match dictGet c0 "delta" (.jobj []) with
              | .error e => .error e
              | .ok delta =>
                match dictGet delta "content" (.jstr "") with
                | .error e => .error e
                | .ok content =>
                  match (if jTruthy content then
                           match content with
                           | .jstr s => Except.ok (fc ++ s)
                           | _ => Except.error "can only concatenate str to str"
                         else Except.ok fc) with
                  | .error e => .error e
                  | .ok fc1 =>
                    match dictGet delta "images" (.jarr []) with
                    | .error e => .error e
                    | .ok images =>
                      if jTruthy images then
                        match pyLen images with
                        | .error e => .error e
                        | .ok m =>
                          if m > 0 then
                            match pyIndexLast images with
                            | .error e => .error e
                            | .ok lastImg =>
                              match dictGet lastImg "image_url" (.jobj []) with
                              | .error e => .error e
                              | .ok iu =>
                                match dictGet iu "url" .jnull with
                                | .error e => .error e
                                | .ok u =>
                                  if jTruthy u then .ok (.inl (pyStrOrMarker u))
                                  else reasoningStep fc1 delta
                          else reasoningStep fc1 delta
                      else reasoningStep fc1 delta
          else .ok (.inr fc)
    else .ok (.inr fc)

/-- `line.startswith('data: ') and line != 'data: [DONE]'` on a stripped line. -/
def isDataLine (s : List Char) : Bool :=
  "data: ".data.isPrefixOf s && !(s == "data: [DONE]".data)

/-- Processing of one line of the SSE stream (ttp.py lines 169-195): strip it,
keep only `data: ` lines other than the terminator, and JSON-decode the payload
(decode failures are silently skipped). -/
def sseLineStep (fc : String) (lineCs : List Char) : Sum String String :=
  if isDataLine (pyStripL lineCs) then
    match loadsL ((pyStripL lineCs).drop 6) with
    | none => .inr fc
    | some ch =>
      match sseChunk fc ch with
      | .error e => .inl ("Exception: " ++ e)
      | .ok r => r
  else .inr fc

/-- The SSE loop (`for line in response_text.splitlines()`), with `return`
inside the loop modelled by `.inl`. -/
def sseLoop : List (List Char) → String → Sum String String
  | [], fc => .inr fc
  | l :: ls, fc =>
    match sseLineStep fc l with
    | .inl r => .inl r
    | .inr fc2 => sseLoop ls fc2

/-- URL extraction and diagnostic fallbacks (ttp.py lines 197-220): a Markdown
image link first, then an HTML video `src`, then any bare URL, then the
diagnostic messages. -/
def extractStage (fc : String) (rawTxt : String) : String :=
  match mdSearch fc with
  | some u => u
  | none =>
    match videoSearch fc with
    | some u => u
    | none =>
      match urlSearch fc with
      | some u => u
      | none =>
        if fc ≠ "" then "No URL found in response. Model Output: " ++ takeS 500 fc
        else if rawTxt ≠ "" ∧ pyStrip rawTxt ≠ "" then
          "API Error: " ++ takeS 200 (pyStrip rawTxt)
        else "Empty response from Flow2API"

/-- The full response parser of `call_flow2api` on the (stripped) response
body: single-JSON handling, then the SSE loop when `full_content` is still
falsy, then URL extraction on the accumulated text. -/
def parseFlowResponse (txt : String) : String :=
  match jsonStep txt with
  | .inl r => r
  | .inr fcv =>
    if !jTruthy fcv then
      match sseLoop (splitLines txt) "" with
      | .inl r => r
      | .inr fc => extractStage fc txt
    else
      match fcv with
      | .jstr s => extractStage s txt
      | _ => "Exception: expected string or bytes-like object"

/-- Outcome of the curl subprocess in `call_flow2api`: a non-zero exit code
(line 105), the stripped stdout text (line 107), or an exception caught by the
outer handler (line 224). -/
inductive CurlOutcome where
  | curlFail (msg : String)
  | good (stdoutTxt : String)
  | exn (msg : String)

/-- `call_flow2api` as a function of the curl outcome. -/
def callFlow2api : CurlOutcome → String
  | .curlFail m => "Error: Curl failed - " ++ m
  | .good t => parseFlowResponse (pyStrip t)
  | .exn m => "Exception: " ++ m

/-! ## `get_model_suffix` (ttp.py lines 14-42) and the model-name suffixing -/

/-- Python `int(str)` on ASCII input: optional surrounding whitespace, an
optional sign, and digit groups separated by single underscores. -/
def validUD (cs : List Char) : Bool :=
  match cs with
  | [] => false
  | c :: _ =>
    isDigitC c &&
    (match cs.getLast? with
     | some d => isDigitC d
     | none => false) &&
    cs.all (fun x => isDigitC x || x = '_') &&
    !isSubL ['_', '_'] cs

def natOfDigits (cs : List Char) : Nat :=
  cs.foldl (fun acc c => acc * 10 + (c.toNat - '0'.toNat)) 0

def pyInt (s : String) : Option Int :=
  let cs := pyStripL s.data
  let signed : Bool × List Char :=
    match cs with
    | '-' :: r => (true, r)
    | '+' :: r => (false, r)
    | _ => (false, cs)
  if validUD signed.2 then
    let n := natOfDigits (signed.2.filter (fun c => c ≠ '_'))
    some (if signed.1 then -(n : Int) else (n : Int))
  else none

/-- Python `s.split(sep)` for a one-character separator. -/
def splitOnC (sep : Char) : List Char → List (List Char)
  | [] => [[]]
  | c :: r =>
    match splitOnC sep r with
    | [] => [[]]
    | g :: gs => if c = sep then [] :: g :: gs else (c :: g) :: gs

/-- `w, h = map(int, s.split(sep))`: succeeds exactly when there are two
fields and both parse as Python ints; any failure ends in the bare `except`. -/
def parseIntPair (sep : Char) (s : String) : Option (Int × Int) :=
  match splitOnC sep s.data with
  | [a, b] =>
    match pyInt a.asString, pyInt b.asString with
    | some w, some h => some (w, h)
    | _, _ => none
  | _ => none

/-- Python truthiness of an optional string (`if s:`). -/
def truthyS : Option String → Bool
  | none => false
  | some s => !(s == "")

/-- The `elif image_size:` branch of `get_model_suffix` (ttp.py lines 33-40). -/
def sizeTarget (imageSize : Option String) : String :=
  match imageSize with
  | some s =>
    if s ≠ "" then
      let sl := lowerS s
      if containsC 'x' sl then
        match parseIntPair 'x' sl with
        | some (w, h) => if h > w then "portrait" else "landscape"
        | none => "landscape"
      else "landscape"
    else "landscape"
  | none => "landscape"

/-- `get_model_suffix(aspect_ratio, image_size, separator)` (ttp.py lines 14-42). -/
def getModelSuffix (ar imageSize : Option String) (separator : String) : String :=
  let target :=
    match ar with
    | some a =>
      if a ≠ "" then
        let al := lowerS a
        if al = "p" || al = "portrait" then "portrait"
        else if al = "l" || al = "landscape" then "landscape"
        else
          match parseIntPair ':' a with
          | some (w, h) => if h > w then "portrait" else "landscape"
          | none => "landscape"
      else sizeTarget imageSize
    | none => sizeTarget imageSize
  separator ++ target

/-- Flow model-name suffixing of `generate_image` (ttp.py lines 371-385):
strip a trailing `-preview` from Gemini models, then append the
landscape/portrait suffix unless one (or `-square`) is already present. -/
def flowModelName (model : String) (ar imageSize : Option String) : String :=
  let suffix := getModelSuffix ar imageSize "-"
  let m1 :=
    if isSubS "gemini" (lowerS model) && endsW "-preview" model then
      (model.data.take (model.data.length - 8)).asString
    else model
  if isSubS "-landscape" m1 || isSubS "-portrait" m1 || isSubS "-square" m1 then m1
  else m1 ++ suffix

/-- Video model-name suffixing of `generate_video` (ttp.py lines 499-502):
same rule with `_` as separator and no image-size fallback. -/
def videoModelName (model : String) (ar : Option String) : String :=
  let suffix := getModelSuffix ar none "_"
  if isSubS "_landscape" model || isSubS "_portrait" model then model
  else model ++ suffix

/-! ## `generate_image` (ttp.py lines 226-490)

Arguments mirror the Python signature; the `Oracle` collects every effectful
outcome the function can observe:

 * `flowCall`: what the one `call_flow2api` invocation of the run observes
   (the openai and flow branches are mutually exclusive, so one field suffices);
 * `download`: the HTTP download of a returned URL (`.ok` status, or `.error`
   for a raised exception);
 * `realSize`: the `WxH` string probed from the downloaded bytes, `"Unknown"`
   when probing fails (only quoted inside source-info strings);
 * `b64Ok`: whether `base64.b64decode` of a data-URI payload succeeds;
 * `geminiPath`: the second component of `generate_image_gemini`, whose first
   component is the literal `None` on every return path of its source, and
   whose second is a non-empty string on every return path (the local file
   name or an error message).

File writes are modelled as always succeeding, and the `seed` parameter is
ignored exactly as in the source. -/

structure GenArgs where
  prompt : String := ""
  googleKey : Option String := none
  model : String := ""
  imageSize : Option String := some "1024x1024"
  inputImages : List String := []
  resolution : Option String := none
  arParam : Option String := none
  flowUrl : Option String := none
  flowToken : Option String := none
  provider : Option String := none
deriving DecidableEq

structure Oracle where
  flowCall : CurlOutcome := .good ""
  download : Except String Nat := .ok 200
  realSize : String := "Unknown"
  b64Ok : Bool := true
  geminiPath : String := "downloaded_image.jpeg"

/-- The `(url, path, source)` triple returned by `generate_image`. -/
structure GenResult where
  url : Option String
  path : Option String
  source : Option String
deriving DecidableEq

/-- `x if x else 'Default'` as used in the source-info strings. -/
def optS (o : Option String) (d : String) : String :=
  match o with
  | some s => if s ≠ "" then s else d
  | none => d

/-- Source-info string of a successful openai-branch result (ttp.py 320-322,
348-350). -/
def openaiSrc (a : GenArgs) (o : Oracle) : String :=
  "OpenAI Compatible (" ++ a.model ++ ")" ++ " | AR: " ++ optS a.arParam "Default" ++
  " | Res: " ++ optS a.resolution "Default" ++ " (" ++ o.realSize ++ ")"

/-- Source-info string of a successful flow-branch result (ttp.py 433-434,
457-458). -/
def flowSrc (a : GenArgs) (o : Oracle) : String :=
  "Flow2API (" ++ flowModelName a.model a.arParam a.imageSize ++ ")" ++ " | AR: " ++
  optS a.arParam "Default" ++ " (" ++ o.realSize ++ ")"

/-- Result handling shared (verbatim, per branch tag) by the openai branch
(ttp.py 296-358) and the flow branch (ttp.py 410-466): `.inl` a successful
return, `.inr` the accumulated `flow_error`. -/
def attemptOutcome (okSrc failTag result : String) (o : Oracle) :
    Sum GenResult String :=
  if result ≠ "" then
    if startsW "http" result then
      match o.download with
      | .ok st =>
        if st = 200 then .inl ⟨some result, some "downloaded_image.jpeg", some okSrc⟩
        else .inr (failTag ++ " generated URL but download failed: " ++ toString st)
      | .error e => .inr (failTag ++ " download exception: " ++ e)
    else if startsW "data:image" result then
      if containsC ',' result && o.b64Ok then
        .inl ⟨none, some "downloaded_image.jpeg", some okSrc⟩
      else .inr "Failed to decode base64 image: decode error"
    else .inr (failTag ++ " error: " ++ result)
  else .inr (failTag ++ " error: Empty result")

/-- Decidable criterion for a provider attempt failing, phrased on the same
tests `attemptOutcome` performs. -/
def branchFails (result : String) (o : Oracle) : Bool :=
  if result == "" then true
  else if startsW "http" result then
    match o.download with
    | .ok st => st != 200
    | .error _ => true
  else if startsW "data:image" result then !(containsC ',' result && o.b64Ok)
  else true

/-- The `use_flow` flag of `generate_image` (ttp.py lines 234-242);
`use_openai` is just `provider == 'openai'`. -/
def useFlowB (a : GenArgs) : Bool :=
  if a.provider == some "flow" then true
  else if a.provider == some "openai" then false
  else if a.provider == some "official" then false
  else truthyS a.flowUrl

/-- Step 3 of `generate_image`, the official API (ttp.py lines 477-490),
with the accumulated `flow_error` threaded in. -/
def officialStep (a : GenArgs) (o : Oracle) (fe : Option String) : GenResult :=
  if !truthyS a.googleKey then
    match fe with
    | some e =>
      if e ≠ "" then
        ⟨none, some ("Error: Flow2API failed (" ++ e ++ ") and Google API Key is missing."),
         none⟩
      else ⟨none, some "Error: Google API Key is missing.", none⟩
    | none => ⟨none, some "Error: Google API Key is missing.", none⟩
  else
    if o.geminiPath ≠ "" && !startsW "Error:" o.geminiPath then
      ⟨none, some o.geminiPath,
       some ("Google Gemini (" ++ a.model ++ ")" ++ " | AR: " ++ optS a.arParam "Default" ++
             " | Res: " ++ optS a.resolution "Default")⟩
    else ⟨none, some o.geminiPath, none⟩

/-- `generate_image` (ttp.py lines 226-490): the openai branch (lines
245-364), then the flow branch (lines 367-475), then the official API. -/
def genImage (a : GenArgs) (o : Oracle) : GenResult :=
  match (if (a.provider == some "openai") && truthyS a.flowUrl then
           match attemptOutcome (openaiSrc a o) "OpenAI API" (callFlow2api o.flowCall) o with
           | .inl r => .inl r
           | .inr e =>
             if a.provider == some "openai" then
               Sum.inl (⟨none, some ("Error: OpenAI API failed (" ++ e ++ ")"), none⟩ :
                 GenResult)
             else .inr (some e)
         else .inr none : Sum GenResult (Option String)) with
  | .inl r => r
  | .inr fe0 =>
    match (if useFlowB a && truthyS a.flowUrl && !(a.provider == some "openai") then
             match attemptOutcome (flowSrc a o) "Flow2API" (callFlow2api o.flowCall) o with
             | .inl r => .inl r
             | .inr e =>
               if a.provider == some "flow" then
                 Sum.inl (⟨none, some ("Error: Flow2API failed (" ++ e ++ ")"), none⟩ :
                   GenResult)
               else .inr (some e)
           else .inr fe0 : Sum GenResult (Option String)) with
    | .inl r => r
    | .inr fe => officialStep a o fe

/-! ## `main._check_permission` (main.py lines 39-55) -/

/-- The permission gate.  User and group identifiers and whitelist entries are
modelled as the strings they are converted to (`str(...)`) before comparison;
`groupId = none` models an event with no `group_id` attribute (or `None`). -/
def checkPermission (userWl groupWl : List String) (userId : String)
    (groupId : Option String) : Bool :=
  if groupWl = [] ∧ userWl = [] then true
  else if userWl ≠ [] ∧ userId ∈ userWl then true
  else
    match groupId with
    | some g => if g ≠ "" ∧ groupWl ≠ [] ∧ g ∈ groupWl then true else false
    | none => false

/-! ## `main._get_next_api` (main.py lines 57-69) -/

structure PluginCfg where
  googleKey : Option String := none
  groupWl : List String := []
  userWl : List String := []
  ignoreAtList : List String := []
  openaiUrl : String := "http://localhost:8317/v1/chat/completions"
  openaiTokens : List String := []
  flowUrl : String := "http://localhost:8317/v1/chat/completions"
  flowTokens : List String := []

/-- The two round-robin cursors held on the plugin object. -/
structure RRState where
  openaiIdx : Nat := 0
  flowIdx : Nat := 0
deriving DecidableEq

/-- `_get_next_api`: pick `(url, token)` for a provider, advancing that
provider's round-robin cursor. -/
def getNextApi (cfg : PluginCfg) (st : RRState) (apiType : String) :
    (Option String × Option String) × RRState :=
  if apiType = "openai" then
    if cfg.openaiTokens = [] then ((some cfg.openaiUrl, none), st)
    else
      ((some cfg.openaiUrl, cfg.openaiTokens.get? (st.openaiIdx % cfg.openaiTokens.length)),
       { st with openaiIdx := st.openaiIdx + 1 })
  else if apiType = "flow" then
    if cfg.flowTokens = [] then ((some cfg.flowUrl, none), st)
    else
      ((some cfg.flowUrl, cfg.flowTokens.get? (st.flowIdx % cfg.flowTokens.length)),
       { st with flowIdx := st.flowIdx + 1 })
  else ((none, none), st)

/-! ## Directive parsing of `main._generate_core` (main.py lines 127-174) -/

/-- Case-insensitive literal match at the head; returns the actual consumed
characters and the rest (re.IGNORECASE keeps `group(...)` in original case). -/
def matchCI : List Char → List Char → Option (List Char × List Char)
  | [], cs => some ([], cs)
  | _ :: _, [] => none
  | p :: ps, c :: r =>
    if lowerC c = lowerC p then
      match matchCI ps r with
      | some (got, rest) => some (c :: got, rest)
      | none => none
    else none

/-- Match `--ar\s+X` (IGNORECASE) at the head, for a one-letter `X`;
returns the rest after the match. -/
def matchArAt (target : Char) (cs : List Char) : Option (List Char) :=
  match cs with
  | '-' :: '-' :: c1 :: c2 :: r =>
    if lowerC c1 = 'a' && lowerC c2 = 'r' then
      let ws := r.takeWhile isPyWs
      if ws.isEmpty then none
      else
        match r.drop ws.length with
        | c :: rest => if lowerC c = target then some rest else none
        | [] => none
    else none
  | _ => none

def reSubArGo (target : Char) : Nat → List Char → List Char
  | 0, rest => rest
  | f + 1, rest =>
    match matchArAt target rest with
    | some after => reSubArGo target f after
    | none =>
      match rest with
      | [] => []
      | c :: t => c :: reSubArGo target f t

/-- `re.sub(r'--ar\s+X', '', prompt, flags=re.IGNORECASE)`. -/
def reSubAr (target : Char) (s : String) : String :=
  (reSubArGo target s.data.length s.data).asString

/-- First alternative of a regex alternation matching at the head (Python
tries alternatives left to right); returns the consumed characters. -/
def firstAltCI : List String → List Char → Option (List Char)
  | [], _ => none
  | a :: as, cs =>
    match matchCI a.data cs with
    | some (got, _) => some got
    | none => firstAltCI as cs

/-- Match `--ar\s+(alt1|alt2|...)` (IGNORECASE) at the head: `(group0, group1)`.
The greedy `\s+` takes the maximal whitespace run; none of the alternatives the
plugin builds begins with whitespace, so no backtracking into it is possible. -/
def arMatchAt (alts : List String) (cs : List Char) : Option (List Char × List Char) :=
  match cs with
  | '-' :: '-' :: c1 :: c2 :: r =>
    if lowerC c1 = 'a' && lowerC c2 = 'r' then
      let ws := r.takeWhile isPyWs
      if ws.isEmpty then none
      else
        match firstAltCI alts (r.drop ws.length) with
        | some got => some ('-' :: '-' :: c1 :: c2 :: (ws ++ got), got)
        | none => none
    else none
  | _ => none

/-- `re.search` for the aspect-ratio directive: leftmost match wins. -/
def arSearchL (alts : List String) : List Char → Option (List Char × List Char)
  | [] => none
  | c :: t =>
    match arMatchAt alts (c :: t) with
    | some r => some r
    | none => arSearchL alts t

/-- Match `--(alt1|alt2|...)` (IGNORECASE) at the head: `(group0, group1)`. -/
def resMatchAt (alts : List String) (cs : List Char) : Option (List Char × List Char) :=
  match cs with
  | '-' :: '-' :: r =>
    match firstAltCI alts r with
    | some got => some ('-' :: '-' :: got, got)
    | none => none
  | _ => none

/-- `re.search` for the resolution directive: leftmost match wins. -/
def resSearchL (alts : List String) : List Char → Option (List Char × List Char)
  | [] => none
  | c :: t =>
    match resMatchAt alts (c :: t) with
    | some r => some r
    | none => resSearchL alts t

def replaceAllGo (pat : List Char) : Nat → List Char → List Char
  | 0, rest => rest
  | f + 1, rest =>
    if pat.isPrefixOf rest && !pat.isEmpty then replaceAllGo pat f (rest.drop pat.length)
    else
      match rest with
      | [] => []
      | c :: t => c :: replaceAllGo pat f t

/-- Python `s.replace(pat, '')`: remove every (left-to-right, non-overlapping)
occurrence. -/
def replaceAllS (pat : String) (s : String) : String :=
  (replaceAllGo pat.data s.data.length s.data).asString

/-- Per-command-group configuration consulted by `_generate_core`
(`{group}_enable_ar`, `{group}_allowed_ars`, `{group}_enable_res`,
`{group}_allowed_res`, with the source's defaults). -/
structure GroupCfg where
  enableAr : Bool := true
  allowedArs : List String :=
    ["1:1", "2:3", "3:2", "3:4", "4:3", "4:5", "5:4", "9:16", "16:9", "21:9"]
  enableRes : Bool := false
  allowedRes : List String := ["1k", "2k", "4k"]

/-- The parameter-normalisation block of `_generate_core` (main.py lines
131-174): provider-specific parsing of `--ar` / resolution directives out of
the prompt.  Returns `(prompt, aspect_ratio, resolution)`. -/
def normalizeParams (provider : String) (configGroup : Option String) (gc : GroupCfg)
    (prompt0 : String) (ar0 res0 : Option String) :
    String × Option String × Option String :=
  if provider = "flow" then
    let pl := lowerS prompt0
    if isSubS "--ar l" pl then (pyStrip (reSubAr 'l' prompt0), some "landscape", res0)
    else if isSubS "--ar p" pl then (pyStrip (reSubAr 'p' prompt0), some "portrait", res0)
    else (prompt0, ar0, res0)
  else if (provider = "openai" || provider = "official") && truthyS configGroup then
    let step1 : String × Option String :=
      if gc.enableAr && !truthyS ar0 then
        match arSearchL (gc.allowedArs ++ ["square", "landscape", "portrait"]) prompt0.data with
        | some (g0, g1) => (pyStrip (replaceAllS g0.asString prompt0), some g1.asString)
        | none => (prompt0, ar0)
      else (prompt0, ar0)
    let step2 : String × Option String :=
      if gc.enableAr && !truthyS ar0 && !truthyS step1.2 then
        let pl := lowerS step1.1
        if isSubS "--ar l" pl then (pyStrip (reSubAr 'l' step1.1), some "16:9")
        else if isSubS "--ar p" pl then (pyStrip (reSubAr 'p' step1.1), some "9:16")
        else step1
      else step1
    let step3 : String × Option String :=
      if gc.enableRes && !truthyS res0 then
        match resSearchL gc.allowedRes step2.1.data with
        | some (g0, g1) => (pyStrip (replaceAllS g0.asString step2.1), some (upperS g1.asString))
        | none => (step2.1, res0)
      else (step2.1, res0)
    (step3.1, step2.2, step3.2)
  else (prompt0, ar0, res0)

/-! ## Result classification and reply construction of `_generate_core`
(main.py lines 191-216) -/

/-- A reply chain element (`Image.fromURL` / `Image.fromFileSystem`). -/
inductive ChainElem where
  | fromURL (u : String)
  | fromFile (p : String)
deriving DecidableEq

/-- What `_generate_core` returns: `(success, message, chain, source)`. -/
structure CoreOut where
  ok : Bool
  msg : String
  chain : Option (List ChainElem)
  source : Option String
deriving DecidableEq

/-- Reply-chain construction (main.py lines 208-216). -/
def chainStage (action : String) (r : GenResult) : CoreOut :=
  if truthyS r.url then ⟨true, "Success", some [ChainElem.fromURL (r.url.getD "")], r.source⟩
  else if truthyS r.path then
    ⟨true, "Success", some [ChainElem.fromFile (r.path.getD "")], r.source⟩
  else ⟨false, action ++ "失败。", none, none⟩

/-- Result classification of `_generate_core` (main.py lines 203-216). -/
def classifyCore (action : String) (r : GenResult) : CoreOut :=
  if !truthyS r.url && !truthyS r.path then
    ⟨false, action ++ "失败，未知错误。", none, none⟩
  else if (match r.path with
           | some p => !(p == "") && startsW "Error:" p
           | none => false) then
    ⟨false, action ++ "失败: " ++ r.path.getD "", none, none⟩
  else chainStage action r

/-- The `GenArgs` that `_generate_core` hands to `generate_image`
(main.py lines 191-201). -/
def coreGenArgs (cfg : PluginCfg) (modelName provider : String)
    (norm : String × Option String × Option String)
    (inputImages : List String) (curUrl curTok : Option String) : GenArgs :=
  { prompt := norm.1, googleKey := cfg.googleKey, model := modelName,
    inputImages := inputImages, flowUrl := curUrl, flowToken := curTok,
    provider := some provider, arParam := norm.2.1, resolution := norm.2.2 }

/-- `_generate_core` (main.py lines 127-216).  `groups` resolves the
per-command-group configuration; the generation oracle is threaded through. -/
def genCore (cfg : PluginCfg) (groups : String → GroupCfg) (st : RRState)
    (prompt0 modelName provider : String) (configGroup : Option String)
    (ar0 res0 : Option String) (inputImages : List String) (o : Oracle) :
    CoreOut × RRState :=
  let action := if inputImages.isEmpty then "生图" else "改图"
  let norm := normalizeParams provider configGroup (groups (configGroup.getD "")) prompt0 ar0 res0
  let apiSel :=
    if provider = "openai" then getNextApi cfg st "openai"
    else if provider = "flow" then getNextApi cfg st "flow"
    else ((none, none), st)
  if provider = "openai" ∧ ¬truthyS apiSel.1.1 then
    (⟨false, "❌ 未配置 OpenAI 兼容 API URL (openai_api_url)。", none, none⟩, apiSel.2)
  else if provider = "flow" ∧ ¬truthyS apiSel.1.1 then
    (⟨false, "❌ 未配置 Flow API URL (flow_api_url)。", none, none⟩, apiSel.2)
  else
    let r := genImage (coreGenArgs cfg modelName provider norm inputImages apiSel.1.1 apiSel.1.2) o
    (classifyCore action r, apiSel.2)

/-! ## Specification-side definitions

These restate parts of the specification in its own words, to be compared with
the source-derived definitions above. -/

/-- Spec side (§4.3): an explicit `WxH` image-size string is taller than wide. -/
def sizePortraitPerSpec (imageSize : Option String) : Bool :=
  match imageSize with
  | some s =>
    !(s == "") && containsC 'x' (lowerS s) &&
      (match parseIntPair 'x' (lowerS s) with
       | some (w, h) => decide (h > w)
       | none => false)
  | none => false

/-- Spec side (§4.3): the suffix target is portrait exactly when the supplied
ratio names portrait (`p`/`portrait`) or parses as `w:h` with `h > w`, else —
when no ratio is supplied — when the explicit `WxH` size is taller than wide;
everything else (including every malformed string) defaults to landscape. -/
def portraitPerSpec (ar imageSize : Option String) : Bool :=
  match ar with
  | some a =>
    if a ≠ "" then
      lowerS a = "p" || lowerS a = "portrait" ||
        (match parseIntPair ':' a with
         | some (w, h) => decide (h > w)
         | none => false)
    else sizePortraitPerSpec imageSize
  | none => sizePortraitPerSpec imageSize

/-- A string value, or anything falsy (which the chunk handling skips). -/
def strOrFalsy : JVal → Bool
  | .jstr _ => true
  | v => !jTruthy v

/-- The text `delta.content` contributes. -/
def contentText : JVal → String
  | .jstr cs => cs
  | _ => ""

/-- The flagged text an error-marked `reasoning_content` contributes. -/
def reasoningText : JVal → String
  | .jstr rs =>
    if rs ≠ "" && (isSubS "❌" rs || isSubS "Error" rs || isSubS "失败" rs) then
      "\n[Reasoning Error]: " ++ rs
    else ""
  | _ => ""

/-- Spec side (§4.5 step 2): the text contributed by the delta of
`choices[0]`. -/
def deltaText (c0kv : List (String × JVal)) : String :=
  match (jlookup c0kv "delta").getD (.jobj []) with
  | .jobj dkv =>
    contentText ((jlookup dkv "content").getD (.jstr "")) ++
      reasoningText ((jlookup dkv "reasoning_content").getD (.jstr ""))
  | _ => ""

/-- The delta of `choices[0]` is content-only: its `content` and
`reasoning_content` are strings (or falsy), and its `images` entry is falsy. -/
def deltaOnly (c0kv : List (String × JVal)) : Bool :=
  match (jlookup c0kv "delta").getD (.jobj []) with
  | .jobj dkv =>
    strOrFalsy ((jlookup dkv "content").getD (.jstr "")) &&
    !jTruthy ((jlookup dkv "images").getD (.jarr [])) &&
    strOrFalsy ((jlookup dkv "reasoning_content").getD (.jstr ""))
  | _ => false

/-- Spec side (§4.5 step 2): the text contributed by one decoded SSE chunk —
its `delta.content`, plus a flagged copy of error-marked `reasoning_content`. -/
def chunkContent (ch : JVal) : String :=
  match ch with
  | .jobj kv =>
    match jlookup kv "choices" with
    | some cv =>
      match cv with
      | .jarr xs =>
        match xs with
        | c0 :: _ =>
          match c0 with
          | .jobj c0kv => deltaText c0kv
          | _ => ""
        | [] => ""
      | _ => ""
    | none => ""
  | _ => ""

/-- A decoded chunk is a content-only delta: no truthy `images` entry (those
short-circuit the stream) and no value that the chunk handling would choke on. -/
def contentOnlyChunk (ch : JVal) : Bool :=
  match ch with
  | .jobj kv =>
    match jlookup kv "choices" with
    | none => true
    | some cv =>
      match cv with
      | .jarr xs =>
        match xs with
        | [] => true
        | c0 :: _ =>
          match c0 with
          | .jobj c0kv => deltaOnly c0kv
          | _ => false
      | _ => false
  | .jarr xs => !xs.contains (.jstr "choices")
  | .jstr s => !isSubS "choices" s
  | _ => false

/-- A raw line is harmless for the SSE loop: not a data line, an undecodable
payload, or a content-only chunk. -/
def lineOk (lineCs : List Char) : Bool :=
  if isDataLine (pyStripL lineCs) then
    match loadsL ((pyStripL lineCs).drop 6) with
    | none => true
    | some ch => contentOnlyChunk ch
  else true

/-- The text contributed by one raw line of the stream. -/
def lineContent (lineCs : List Char) : String :=
  if isDataLine (pyStripL lineCs) then
    match loadsL ((pyStripL lineCs).drop 6) with
    | none => ""
    | some ch => chunkContent ch
  else ""

/-- Spec side: the accumulated text of the whole stream. -/
def joinContents : List (List Char) → String
  | [] => ""
  | l :: ls => lineContent l ++ joinContents ls

/-! ## Concrete inputs used by the example parts, witnesses and
counterexamples of the claim theorems -/

/-- `choices[0].message.images = [a, b]` with a text URL in `content`. -/
def c2JsonBody : String :=
  "\x7b\"choices\":[\x7b\"message\":\x7b\"content\":\"see http://t/a\",\"images\":[\x7b\"image_url\":\x7b\"url\":\"http://im/a.png\"\x7d\x7d,\x7b\"image_url\":\x7b\"url\":\"http://im/b.png\"\x7d\x7d]\x7d\x7d]\x7d"

def c2ImgA : JVal := .jobj [("image_url", .jobj [("url", .jstr "http://im/a.png")])]

def c2Ikvs : List (String × JVal) := [("url", .jstr "http://im/b.png")]

def c2Bkvs : List (String × JVal) := [("image_url", .jobj c2Ikvs)]

def c2Mkvs : List (String × JVal) :=
  [("content", .jstr "see http://t/a"), ("images", .jarr [c2ImgA, .jobj c2Bkvs])]

def c2Ckvs : List (String × JVal) := [("message", .jobj c2Mkvs)]

def c2Kvs : List (String × JVal) := [("choices", .jarr [.jobj c2Ckvs])]

/-- An SSE stream whose only chunk carries both a text URL and two images. -/
def c2SseBody : String :=
  "data: \x7b\"choices\":[\x7b\"delta\":\x7b\"content\":\"see http://text/a.png\",\"images\":[\x7b\"image_url\":\x7b\"url\":\"http://im/a.png\"\x7d\x7d,\x7b\"image_url\":\x7b\"url\":\"http://im/b.png\"\x7d\x7d]\x7d\x7d]\x7d\ndata: [DONE]"

/-- The SSE example of the specification. -/
def c4Example : String :=
  "data: \x7b\"choices\":[\x7b\"delta\":\x7b\"content\":\"![x](http://img/1.png)\"\x7d\x7d]\x7d\ndata: [DONE]"

/-- An SSE chunk whose accumulated content holds a Markdown image link while
the same chunk carries an `images` entry. -/
def c4ImagesBody : String :=
  "data: \x7b\"choices\":[\x7b\"delta\":\x7b\"content\":\"![t](http://text.png)\",\"images\":[\x7b\"image_url\":\x7b\"url\":\"http://img.png\"\x7d\x7d]\x7d\x7d]\x7d\ndata: [DONE]"

/-- An SSE chunk with error-marked `reasoning_content` holding the only URL. -/
def c4ReasoningBody : String :=
  "data: \x7b\"choices\":[\x7b\"delta\":\x7b\"content\":\"hi\",\"reasoning_content\":\"Error at http://r.example/x\"\x7d\x7d]\x7d\ndata: [DONE]"

/-- A body whose parse yields a Markdown-linked URL. -/
def cMdBody : String :=
  "data: \x7b\"choices\":[\x7b\"delta\":\x7b\"content\":\"![x](http://x/y.png)\"\x7d\x7d]\x7d"

/-- A body whose parse yields no URL at all. -/
def cJunkBody : String := "junk"

def cArgsOpenai : GenArgs :=
  { model := "m", flowUrl := some "http://api", flowToken := some "tok",
    provider := some "openai" }

def cArgsFlow : GenArgs :=
  { model := "m", flowUrl := some "http://api", flowToken := some "tok",
    provider := some "flow" }

def cArgsDefault : GenArgs :=
  { model := "m", flowUrl := some "http://api", flowToken := some "tok",
    googleKey := some "gkey" }

def cArgsDefaultNoKey : GenArgs :=
  { model := "m", flowUrl := some "http://api", flowToken := some "tok" }

def cArgsOfficialNoKey : GenArgs := { model := "m", provider := some "official" }

def cOracleMd : Oracle := { flowCall := .good cMdBody }

def cOracleJunk : Oracle := { flowCall := .good cJunkBody, geminiPath := "gem.jpeg" }

def cW7Cfg : PluginCfg := { flowTokens := ["t1", "t2"], openaiTokens := ["t1", "t2"] }

def cW8GroupCfg : GroupCfg := {}

/-! ## Claim theorems -/

set_option maxRecDepth 10000

/-- Claim C7: for a provider with token list `[t1, t2]`, three sequential
calls of `_get_next_api` for that provider yield `t1, t2, t1` (starting from
the initial cursor); in general the selected token is
`tokens[idx % len]`, the cursor advances by one per call, and selection is
periodic with period `len`.  Stated for both the flow and the openai token
lists. -/
theorem token_round_robin :
    (∀ (cfg : PluginCfg) (st : RRState) (t1 t2 : String),
      cfg.flowTokens = [t1, t2] → st.flowIdx = 0 →
      ∃ st1 st2 : RRState,
        getNextApi cfg st "flow" = ((some cfg.flowUrl, some t1), st1) ∧
        getNextApi cfg st1 "flow" = ((some cfg.flowUrl, some t2), st2) ∧
        (getNextApi cfg st2 "flow").1.2 = some t1) ∧
    (∀ (cfg : PluginCfg) (st : RRState), cfg.flowTokens ≠ [] →
      (getNextApi cfg st "flow").1.2 =
        cfg.flowTokens.get? (st.flowIdx % cfg.flowTokens.length) ∧
      (getNextApi cfg st "flow").2.flowIdx = st.flowIdx + 1 ∧
      (getNextApi cfg { st with flowIdx := st.flowIdx + cfg.flowTokens.length } "flow").1.2 =
        (getNextApi cfg st "flow").1.2) ∧
    (∀ (cfg : PluginCfg) (st : RRState) (t1 t2 : String),
      cfg.openaiTokens = [t1, t2] → st.openaiIdx = 0 →
      ∃ st1 st2 : RRState,
        getNextApi cfg st "openai" = ((some cfg.openaiUrl, some t1), st1) ∧
        getNextApi cfg st1 "openai" = ((some cfg.openaiUrl, some t2), st2) ∧
        (getNextApi cfg st2 "openai").1.2 = some t1) := by
  refine ⟨?_, ?_, ?_⟩
  · intro cfg st t1 t2 h h0
    refine ⟨{ st with flowIdx := st.flowIdx + 1 }, { st with flowIdx := st.flowIdx + 2 }, ?_, ?_, ?_⟩ <;>
      simp [getNextApi, h, h0]
  · intro cfg st h
    refine ⟨?_, ?_, ?_⟩ <;> simp [getNextApi, h, Nat.add_mod_right]
  · intro cfg st t1 t2 h h0
    refine ⟨{ st with openaiIdx := st.openaiIdx + 1 }, { st with openaiIdx := st.openaiIdx + 2 }, ?_, ?_, ?_⟩ <;>
      simp [getNextApi, h, h0]

/-- Witness for C7 at the concrete two-token configuration. -/
theorem token_round_robin_witness :
    ∃ st1 st2 : RRState,
      getNextApi cW7Cfg {} "flow" = ((some cW7Cfg.flowUrl, some "t1"), st1) ∧
      getNextApi cW7Cfg st1 "flow" = ((some cW7Cfg.flowUrl, some "t2"), st2) ∧
      (getNextApi cW7Cfg st2 "flow").1.2 = some "t1" :=
  token_round_robin.1 cW7Cfg {} "t1" "t2" rfl rfl

/-- Claim C8 counterexample: with group whitelist `[""]` and an event whose
group id is the empty string, the gate denies although the group id is a
member of the group whitelist — Python's truthiness test on `group_id` skips
the membership check. -/
theorem check_permission_empty_gid :
    checkPermission ["u1"] [""] "someone" (some "") = false ∧
      ("" ∈ ([""] : List String)) :=
  ⟨rfl, by decide⟩

/-- Claim C8 (amended): the gate allows everyone when both whitelists are
empty; otherwise it allows exactly the events whose sender id is in the user
whitelist, or whose group id is present, non-empty, and in the group
whitelist.  Comparison is exact string equality, and the gate is a pure
function of its inputs (no side effects). -/
theorem check_permission_iff (userWl groupWl : List String) (uid : String)
    (gid : Option String) :
    checkPermission userWl groupWl uid gid = true ↔
      (userWl = [] ∧ groupWl = []) ∨ uid ∈ userWl ∨
      ∃ g, gid = some g ∧ g ≠ "" ∧ g ∈ groupWl := by
  unfold checkPermission
  split_ifs with h1 h2
  · simp only [eq_self_iff_true, true_iff]
    exact Or.inl ⟨h1.2, h1.1⟩
  · simp only [eq_self_iff_true, true_iff]
    exact Or.inr (Or.inl h2.2)
  · have hnomem : uid ∉ userWl := by
      intro hmem
      have hne : userWl ≠ [] := by
        intro hcon
        rw [hcon] at hmem
        exact List.not_mem_nil uid hmem
      exact h2 ⟨hne, hmem⟩
    cases gid with
    | none =>
      simp only [reduceCtorEq, false_and, exists_false, or_false, false_iff]
      rintro (⟨hu, hg⟩ | hmem)
      · exact h1 ⟨hg, hu⟩
      · exact hnomem hmem
    | some g =>
      dsimp only
      split_ifs with h3
      · simp only [eq_self_iff_true, true_iff]
        exact Or.inr (Or.inr ⟨g, rfl, h3.1, h3.2.2⟩)
      · simp only [false_iff]
        rintro (⟨hu, hg⟩ | hmem | ⟨g2, hg2, hne, hmemg⟩)
        · exact h1 ⟨hg, hu⟩
        · exact hnomem hmem
        · have hg3 : g2 = g := by
            injection hg2.symm
          subst hg3
          have hgwne : groupWl ≠ [] := by
            intro hcon
            rw [hcon] at hmemg
            exact List.not_mem_nil g2 hmemg
          exact h3 ⟨hne, hgwne, hmemg⟩

/-- Claim C9: for the Flow provider, `"a cat --ar p"` normalises to prompt
`"a cat"` with aspect ratio `"portrait"`; in general the Flow branch only
recognises `--ar l` / `--ar p` (first match `l`, else `p`, detected on the
lower-cased prompt), maps them to `"landscape"` / `"portrait"`, strips the
directive text (case-insensitively, over any whitespace run) and otherwise
leaves prompt and parameters untouched. -/
theorem flow_ar_directive :
    (normalizeParams "flow" none {} "a cat --ar p" none none
      = ("a cat", some "portrait", none)) ∧
    (normalizeParams "flow" none {} "a --AR  p b --ar P" none none
      = ("a  b", some "portrait", none)) ∧
    (∀ (gc : GroupCfg) (cg : Option String) (prompt : String) (ar res : Option String),
      isSubS "--ar l" (lowerS prompt) = false → isSubS "--ar p" (lowerS prompt) = false →
      normalizeParams "flow" cg gc prompt ar res = (prompt, ar, res)) ∧
    (∀ (gc : GroupCfg) (cg : Option String) (prompt : String) (ar res : Option String),
      isSubS "--ar l" (lowerS prompt) = false → isSubS "--ar p" (lowerS prompt) = true →
      (normalizeParams "flow" cg gc prompt ar res).2.1 = some "portrait" ∧
      (normalizeParams "flow" cg gc prompt ar res).1 = pyStrip (reSubAr 'p' prompt)) ∧
    (∀ (gc : GroupCfg) (cg : Option String) (prompt : String) (ar res : Option String),
      isSubS "--ar l" (lowerS prompt) = true →
      (normalizeParams "flow" cg gc prompt ar res).2.1 = some "landscape" ∧
      (normalizeParams "flow" cg gc prompt ar res).1 = pyStrip (reSubAr 'l' prompt)) := by
  refine ⟨rfl, rfl, ?_, ?_, ?_⟩
  · intro gc cg prompt ar res hl hp
    simp [normalizeParams, hl, hp]
  · intro gc cg prompt ar res hl hp
    simp [normalizeParams, hl, hp]
  · intro gc cg prompt ar res hl
    simp [normalizeParams, hl]

/-- Witness for C9 at a directive-free prompt. -/
theorem flow_ar_directive_witness :
    normalizeParams "flow" none {} "just a cat" (some "16:9") none
      = ("just a cat", some "16:9", none) :=
  flow_ar_directive.2.2.1 {} none "just a cat" (some "16:9") none (by decide) (by decide)

/-- Claim C3 counterexample: for the Flow provider an embedded `--ar p`
directive overwrites an explicitly supplied `aspect_ratio="16:9"` argument —
the Flow branch of `_generate_core` parses the prompt unconditionally. -/
theorem explicit_ar_flow_override :
    normalizeParams "flow" none {} "a cat --ar p" (some "16:9") none
      = ("a cat", some "portrait", none) ∧ (some "portrait" ≠ some "16:9") :=
  ⟨rfl, by decide⟩

/-- Claim C3 (amended): for every provider other than Flow, a supplied
(non-empty) `aspect_ratio` argument suppresses directive parsing for that
parameter and is the final value — in particular explicit `"16:9"` beats a
`--ar 4:3` left in the prompt; a supplied `resolution` argument is final for
every provider; the Flow provider instead lets a `--ar l`/`--ar p` directive
overwrite the explicit argument. -/
theorem explicit_args_precedence :
    (∀ (provider : String) (cg : Option String) (gc : GroupCfg) (prompt : String)
       (a : String) (res : Option String), provider ≠ "flow" → a ≠ "" →
      (normalizeParams provider cg gc prompt (some a) res).2.1 = some a) ∧
    (∀ (provider : String) (cg : Option String) (gc : GroupCfg) (prompt : String)
       (ar : Option String) (r : String), r ≠ "" →
      (normalizeParams provider cg gc prompt ar (some r)).2.2 = some r) ∧
    (∀ (gc : GroupCfg) (cg : Option String) (prompt : String) (a : String)
       (res : Option String),
      isSubS "--ar l" (lowerS prompt) = false → isSubS "--ar p" (lowerS prompt) = true →
      (normalizeParams "flow" cg gc prompt (some a) res).2.1 = some "portrait") ∧
    (normalizeParams "openai" (some "g") {} "a cat --ar 4:3" (some "16:9") none
      = ("a cat --ar 4:3", some "16:9", none)) := by
  refine ⟨?_, ?_, ?_, rfl⟩
  · intro provider cg gc prompt a res hf ha
    have hta : truthyS (some a) = true := by
      simp [truthyS, ha]
    simp only [normalizeParams, if_neg hf, hta, Bool.not_true, Bool.and_false,
      Bool.false_eq_true, if_false]
    split_ifs <;> rfl
  · intro provider cg gc prompt ar r hr
    have htr : truthyS (some r) = true := by
      simp [truthyS, hr]
    simp only [normalizeParams, htr, Bool.not_true, Bool.and_false,
      Bool.false_eq_true, if_false]
    split_ifs <;> rfl
  · intro gc cg prompt a res hl hp
    simp [normalizeParams, hl, hp]

theorem splitOnC_single (sep : Char) (cs : List Char) (h : ∀ c ∈ cs, c ≠ sep) :
    splitOnC sep cs = [cs] := by
  induction cs with
  | nil => rfl
  | cons c t ih =>
    have hc : c ≠ sep := h c (List.mem_cons_self c t)
    have ht : ∀ x ∈ t, x ≠ sep := fun x hx => h x (List.mem_cons_of_mem c hx)
    simp [splitOnC, ih ht, hc]

theorem parseIntPair_no_sep (sep : Char) (a : String) (h : ∀ c ∈ a.data, c ≠ sep) :
    parseIntPair sep a = none := by
  unfold parseIntPair
  rw [splitOnC_single sep a.data h]

theorem no_sep_of_lower (a : String) (sep : Char) (hsep : lowerC sep = sep)
    (h : sep ∉ (lowerS a).data) : ∀ c ∈ a.data, c ≠ sep := by
  intro c hc hceq
  subst hceq
  refine h ?_
  show c ∈ ((lowerL a.data).asString).data
  have : c ∈ lowerL a.data := by
    have := List.mem_map_of_mem lowerC hc
    rwa [hsep] at this
  simpa [List.asString] using this

theorem sizeTarget_spec (size : Option String) :
    sizeTarget size = if sizePortraitPerSpec size then "portrait" else "landscape" := by
  unfold sizeTarget sizePortraitPerSpec
  cases size with
  | none => simp
  | some s =>
    by_cases hs : s = ""
    · simp [hs]
    · by_cases hx : containsC 'x' (lowerS s) = true
      · cases hp : parseIntPair 'x' (lowerS s) with
        | none => simp [hs, hx, hp]
        | some wh =>
          by_cases hw : wh.2 > wh.1
          · simp [hs, hx, hp, hw]
          · simp [hs, hx, hp, hw]
      · simp [hs, hx]

/-- Claim C6: `get_model_suffix` appends `separator ++ target`, with target
portrait exactly under the spec-side taller-than-wide criterion
(`portraitPerSpec`) — covering the `p`/`portrait` keywords, `w:h` ratios with
`h > w`, the `WxH` fallback, and the silent landscape default on every
malformed input (totality of the Lean function is the never-raises claim);
image models keep an existing `-landscape`/`-portrait`/`-square` suffix;
the Gemini `-preview` suffix is stripped before suffixing; video models use
`_` as separator. -/
theorem model_suffixing :
    (∀ (ar size : Option String) (sep : String),
      getModelSuffix ar size sep =
        sep ++ (if portraitPerSpec ar size then "portrait" else "landscape")) ∧
    (∀ (model : String) (ar size : Option String),
      (isSubS "-landscape" model || isSubS "-portrait" model || isSubS "-square" model)
          = true →
      (isSubS "gemini" (lowerS model) && endsW "-preview" model) = false →
      flowModelName model ar size = model) ∧
    (flowModelName "gemini-2.5-flash-image-preview" (some "9:16") (some "1024x1024")
      = "gemini-2.5-flash-image-portrait") ∧
    (getModelSuffix (some "not-a-ratio") none "-" = "-landscape") ∧
    (getModelSuffix none (some "12xx34") "-" = "-landscape") ∧
    (∀ (model : String) (ar : Option String),
      (isSubS "_landscape" model || isSubS "_portrait" model) = false →
      videoModelName model ar =
        model ++ "_" ++ (if portraitPerSpec ar none then "portrait" else "landscape")) := by
  have hmain : ∀ (ar size : Option String) (sep : String),
      getModelSuffix ar size sep =
        sep ++ (if portraitPerSpec ar size then "portrait" else "landscape") := by
    intro ar size sep
    cases ar with
    | none => simp [getModelSuffix, portraitPerSpec, sizeTarget_spec]
    | some a =>
      by_cases ha : a = ""
      · simp [getModelSuffix, portraitPerSpec, ha, sizeTarget_spec]
      · by_cases h1 : lowerS a = "p"
        · simp [getModelSuffix, portraitPerSpec, ha, h1]
        · by_cases h2 : lowerS a = "portrait"
          · simp [getModelSuffix, portraitPerSpec, ha, h1, h2]
          · by_cases h3 : lowerS a = "l"
            · have hparse : parseIntPair ':' a = none := by
                refine parseIntPair_no_sep ':' a (no_sep_of_lower a ':' rfl ?_)
                rw [h3]
                decide
              simp [getModelSuffix, portraitPerSpec, ha, h1, h2, h3, hparse]
            · by_cases h4 : lowerS a = "landscape"
              · have hparse : parseIntPair ':' a = none := by
                  refine parseIntPair_no_sep ':' a (no_sep_of_lower a ':' rfl ?_)
                  rw [h4]
                  decide
                simp [getModelSuffix, portraitPerSpec, ha, h1, h2, h3, h4, hparse]
              · cases hp : parseIntPair ':' a with
                | none => simp [getModelSuffix, portraitPerSpec, ha, h1, h2, h3, h4, hp]
                | some wh =>
                  by_cases hw : wh.2 > wh.1
                  · simp [getModelSuffix, portraitPerSpec, ha, h1, h2, h3, h4, hp, hw]
                  · simp [getModelSuffix, portraitPerSpec, ha, h1, h2, h3, h4, hp, hw]
  refine ⟨hmain, ?_, rfl, rfl, rfl, ?_⟩
  · intro model ar size hsuf hprev
    simp [flowModelName, hprev, hsuf]
  · intro model ar hsuf
    simp [videoModelName, hsuf, hmain ar none "_", String.append_assoc]

/-- Witness for C6: a model with an existing suffix is kept, and video-model
suffixing at a portrait ratio. -/
theorem model_suffixing_witness :
    flowModelName "gemini-2.5-flash-image-portrait" (some "16:9") none
        = "gemini-2.5-flash-image-portrait" ∧
    videoModelName "veo_3_1_t2v_fast" (some "p")
        = "veo_3_1_t2v_fast" ++ "_" ++ "portrait" :=
  ⟨model_suffixing.2.1 "gemini-2.5-flash-image-portrait" (some "16:9") none
      (by decide) (by decide),
   by
    have h := model_suffixing.2.2.2.2.2 "veo_3_1_t2v_fast" (some "p") (by decide)
    simpa using h⟩

/-- Witness for C3 at the openai provider with both arguments supplied. -/
theorem explicit_args_precedence_witness :
    (normalizeParams "openai" (some "g") {} "dog --ar 4:3" (some "16:9") (some "2K")).2.1
        = some "16:9" ∧
    (normalizeParams "openai" (some "g") {} "dog --ar 4:3" (some "16:9") (some "2K")).2.2
        = some "2K" :=
  ⟨explicit_args_precedence.1 "openai" (some "g") {} "dog --ar 4:3" "16:9" (some "2K")
      (by decide) (by decide),
   explicit_args_precedence.2.1 "openai" (some "g") {} "dog --ar 4:3" (some "16:9") "2K"
      (by decide)⟩

/-- Claim C2: whenever the decoded response object carries
`choices[0].message.images = [a, b]` (and no top-level `error`), the parser
returns the URL of the last entry `b` — never `a`'s and never a URL from the
accompanying `content` text, which is left completely unconstrained here; the
second conjunct shows the same last-entry-wins, text-beating behaviour on an
SSE delta chunk carrying two images next to a text URL. -/
theorem parse_images_last_wins :
    (∀ (body : String) (kvs ckvs mkvs bkvs ikvs : List (String × JVal))
       (rest : List JVal) (a : JVal) (u : String),
      loads body = some (.jobj kvs) →
      jlookup kvs "error" = none →
      jlookup kvs "choices" = some (.jarr (.jobj ckvs :: rest)) →
      jlookup ckvs "message" = some (.jobj mkvs) →
      jlookup mkvs "images" = some (.jarr [a, .jobj bkvs]) →
      jlookup bkvs "image_url" = some (.jobj ikvs) →
      jlookup ikvs "url" = some (.jstr u) →
      u ≠ "" →
      parseFlowResponse body = u) ∧
    (parseFlowResponse c2SseBody = "http://im/b.png") := by
  refine ⟨?_, rfl⟩
  intro body kvs ckvs mkvs bkvs ikvs rest a u hload herr hch hmsg himg hiu hurl hu
  have hu2 : (u == "") = false := by
    simp [hu]
  unfold parseFlowResponse jsonStep
  rw [hload]
  unfold jsonStepVal choicesBranch
  simp only [pyContains, herr, hch, hmsg, himg, hiu, hurl, pySubscript, pyLen,
    pyIndex0, pyIndexLast, dictGet, pyStrOrMarker, jTruthy, hu2,
    Option.isSome_none, Option.isSome_some, Option.getD_some, List.length_cons,
    List.isEmpty_cons, Bool.not_false, Bool.not_true, List.getLast,
    Nat.zero_lt_succ, if_true, if_false]

/-- Witness for C2 at the concrete two-image response body. -/
theorem parse_images_last_wins_witness :
    parseFlowResponse c2JsonBody = "http://im/b.png" :=
  parse_images_last_wins.1 c2JsonBody c2Kvs c2Ckvs c2Mkvs c2Bkvs c2Ikvs [] c2ImgA
    "http://im/b.png" rfl rfl rfl rfl rfl rfl rfl (by decide)

theorem strAppend_empty (s : String) : s ++ "" = s := by
  cases s with
  | mk data => show String.mk (data ++ []) = String.mk data
               rw [List.append_nil]

theorem strAppend_assoc (a b c : String) : a ++ b ++ c = a ++ (b ++ c)  := by
  cases a with
  | mk da =>
    cases b with
    | mk db =>
      cases c with
      | mk dc => show String.mk (da ++ db ++ dc) = String.mk (da ++ (db ++ dc))
                 rw [List.append_assoc]

theorem reasoningStep_ok (fc : String) (dkv : List (String × JVal))
    (h : strOrFalsy ((jlookup dkv "reasoning_content").getD (.jstr "")) = true) :
    reasoningStep fc (.jobj dkv) =
      .ok (.inr (fc ++ reasoningText ((jlookup dkv "reasoning_content").getD (.jstr "")))) := by
  cases hr : (jlookup dkv "reasoning_content").getD (.jstr "") with
  | jstr rs =>
    by_cases hrs : rs = ""
    · simp [reasoningStep, reasoningText, dictGet, hr, hrs, jTruthy, strAppend_empty]
    · cases h1 : isSubS "❌" rs <;> cases h2 : isSubS "Error" rs <;>
        cases h3 : isSubS "失败" rs <;>
        simp [reasoningStep, reasoningText, dictGet, pyContains, hr, hrs, jTruthy,
          h1, h2, h3, pyStr, strAppend_empty, strAppend_assoc]
  | jnull => simp [reasoningStep, reasoningText, dictGet, hr, jTruthy, strAppend_empty]
  | jbool b =>
    rw [hr] at h
    have hb : b = false := by
      simpa [strOrFalsy, jTruthy] using h
    simp [reasoningStep, reasoningText, dictGet, hr, jTruthy, hb, strAppend_empty]
  | jnum raw =>
    rw [hr] at h
    have hb : jTruthy (.jnum raw) = false := by
      simpa [strOrFalsy] using h
    simp [reasoningStep, reasoningText, dictGet, hr, hb, strAppend_empty]
  | jarr xs =>
    rw [hr] at h
    have hb : jTruthy (.jarr xs) = false := by
      simpa [strOrFalsy] using h
    simp [reasoningStep, reasoningText, dictGet, hr, hb, strAppend_empty]
  | jobj kvs2 =>
    rw [hr] at h
    have hb : jTruthy (.jobj kvs2) = false := by
      simpa [strOrFalsy] using h
    simp [reasoningStep, reasoningText, dictGet, hr, hb, strAppend_empty]

theorem sseChunk_ok (fc : String) (ch : JVal) (h : contentOnlyChunk ch = true) :
    sseChunk fc ch = .ok (.inr (fc ++ chunkContent ch)) := by
  cases ch with
  | jobj kv =>
    simp only [contentOnlyChunk] at h
    cases hcv : jlookup kv "choices" with
    | none => simp [sseChunk, chunkContent, pyContains, hcv, strAppend_empty]
    | some cv =>
      rw [hcv] at h
      cases cv with
      | jarr xs =>
        cases xs with
        | nil => simp [sseChunk, chunkContent, pyContains, pySubscript, pyLen, hcv,
            strAppend_empty]
        | cons c0 tail =>
          cases c0 with
          | jobj c0kv =>
            simp only [deltaOnly] at h
            cases hd : (jlookup c0kv "delta").getD (.jobj []) with
            | jobj dkv =>
              rw [hd] at h
              simp only [Bool.and_eq_true] at h
              obtain ⟨⟨hcnt, himg⟩, hres⟩ := h
              have himg2 : jTruthy ((jlookup dkv "images").getD (.jarr [])) = false := by
                simpa using himg
              cases hct : (jlookup dkv "content").getD (.jstr "") with
              | jstr cs =>
                by_cases hc0 : cs = ""
                · have hctT : jTruthy (.jstr cs) = false := by
                    simp [jTruthy, hc0]
                  simp [sseChunk, chunkContent, deltaText, contentText, pyContains,
                    pySubscript, pyLen, pyIndex0, dictGet, hcv, hd, hct, hc0, hctT,
                    himg2, reasoningStep_ok fc dkv hres, strAppend_empty, strAppend_assoc]
                · have hctT : jTruthy (.jstr cs) = true := by
                    simp [jTruthy, hc0]
                  simp [sseChunk, chunkContent, deltaText, contentText, pyContains,
                    pySubscript, pyLen, pyIndex0, dictGet, hcv, hd, hct, hc0, hctT,
                    himg2, reasoningStep_ok (fc ++ cs) dkv hres, strAppend_empty,
                    strAppend_assoc]
              | jnull =>
                have hctT : jTruthy JVal.jnull = false := rfl
                simp [sseChunk, chunkContent, deltaText, contentText, pyContains,
                  pySubscript, pyLen, pyIndex0, dictGet, hcv, hd, hct, hctT, himg2,
                  reasoningStep_ok fc dkv hres, strAppend_empty]
              | jbool b =>
                rw [hct] at hcnt
                have hb : b = false := by
                  simpa [strOrFalsy, jTruthy] using hcnt
                have hctT : jTruthy (.jbool b) = false := by
                  simp [jTruthy, hb]
                simp [sseChunk, chunkContent, deltaText, contentText, pyContains,
                  pySubscript, pyLen, pyIndex0, dictGet, hcv, hd, hct, hctT, himg2,
                  reasoningStep_ok fc dkv hres, strAppend_empty]
              | jnum raw =>
                rw [hct] at hcnt
                have hctT : jTruthy (.jnum raw) = false := by
                  simpa [strOrFalsy] using hcnt
                simp [sseChunk, chunkContent, deltaText, contentText, pyContains,
                  pySubscript, pyLen, pyIndex0, dictGet, hcv, hd, hct, hctT, himg2,
                  reasoningStep_ok fc dkv hres, strAppend_empty]
              | jarr ys =>
                rw [hct] at hcnt
                have hctT : jTruthy (.jarr ys) = false := by
                  simpa [strOrFalsy] using hcnt
                simp [sseChunk, chunkContent, deltaText, contentText, pyContains,
                  pySubscript, pyLen, pyIndex0, dictGet, hcv, hd, hct, hctT, himg2,
                  reasoningStep_ok fc dkv hres, strAppend_empty]
              | jobj okv =>
                rw [hct] at hcnt
                have hctT : jTruthy (.jobj okv) = false := by
                  simpa [strOrFalsy] using hcnt
                simp [sseChunk, chunkContent, deltaText, contentText, pyContains,
                  pySubscript, pyLen, pyIndex0, dictGet, hcv, hd, hct, hctT, himg2,
                  reasoningStep_ok fc dkv hres, strAppend_empty]
            | jnull => rw [hd] at h; exact absurd h (by simp)
            | jbool b => rw [hd] at h; exact absurd h (by simp)
            | jnum raw => rw [hd] at h; exact absurd h (by simp)
            | jstr s => rw [hd] at h; exact absurd h (by simp)
            | jarr ys => rw [hd] at h; exact absurd h (by simp)
          | jnull => exact absurd h (by simp)
          | jbool b => exact absurd h (by simp)
          | jnum raw => exact absurd h (by simp)
          | jstr s => exact absurd h (by simp)
          | jarr ys => exact absurd h (by simp)
      | jnull => exact absurd h (by simp)
      | jbool b => exact absurd h (by simp)
      | jnum raw => exact absurd h (by simp)
      | jstr s => exact absurd h (by simp)
      | jobj okv => exact absurd h (by simp)
  | jarr xs =>
    have hx : xs.contains (.jstr "choices") = false := by
      simpa [contentOnlyChunk] using h
    simp [sseChunk, pyContains, chunkContent, hx, strAppend_empty]
  | jstr s =>
    have hx : isSubS "choices" s = false := by
      simpa [contentOnlyChunk] using h
    simp [sseChunk, pyContains, chunkContent, hx, strAppend_empty]
  | jnull => exact absurd h (by simp [contentOnlyChunk])
  | jbool b => exact absurd h (by simp [contentOnlyChunk])
  | jnum raw => exact absurd h (by simp [contentOnlyChunk])

theorem sseLineStep_ok (fc : String) (l : List Char) (h : lineOk l = true) :
    sseLineStep fc l = .inr (fc ++ lineContent l) := by
  unfold sseLineStep lineContent
  unfold lineOk at h
  by_cases hd : isDataLine (pyStripL l) = true
  · rw [if_pos hd] at h ⊢
    cases hl : loadsL ((pyStripL l).drop 6) with
    | none => simp [hd, strAppend_empty]
    | some ch =>
      rw [hl] at h
      have hch : contentOnlyChunk ch = true := h
      dsimp only
      rw [sseChunk_ok fc ch hch]
      simp [hd]
  · rw [if_neg hd] at h ⊢
    simp [hd, strAppend_empty]

theorem sseLoop_ok (lines : List (List Char)) :
    ∀ fc : String, (∀ l ∈ lines, lineOk l = true) →
      sseLoop lines fc = .inr (fc ++ joinContents lines) := by
  induction lines with
  | nil => intro fc _; simp [sseLoop, joinContents, strAppend_empty]
  | cons l ls ih =>
    intro fc hall
    have hl : lineOk l = true := hall l (List.mem_cons_self l ls)
    have hls : ∀ x ∈ ls, lineOk x = true := fun x hx => hall x (List.mem_cons_of_mem l hx)
    simp only [sseLoop, sseLineStep_ok fc l hl]
    rw [ih (fc ++ lineContent l) hls, joinContents, strAppend_assoc]

/-- Claim C4 counterexample: in an SSE body that is not a single JSON object,
a chunk that carries both a Markdown image link in its `content` and an
`images` entry returns the `images` URL — not, as the claim's scan-priority
description would have it, the Markdown link of the accumulated text; and a
URL inside error-marked `reasoning_content` (accumulated beyond plain
`delta.content`) is returned where the claim predicts a no-URL diagnostic. -/
theorem sse_images_beat_scan :
    parseFlowResponse c4ImagesBody = "http://img.png" ∧
    parseFlowResponse c4ImagesBody ≠ "http://text.png" ∧
    mdSearch "![t](http://text.png)" = some "http://text.png" ∧
    parseFlowResponse c4ReasoningBody = "http://r.example/x" ∧
    parseFlowResponse c4ReasoningBody ≠ "No URL found in response. Model Output: hi" :=
  ⟨rfl, by decide, rfl, rfl, by decide⟩

/-- Claim C4 (amended): for every response body that `json.loads` rejects,
whose decodable `data: ` chunks are content-only deltas (no truthy `images`
entry — those short-circuit as in C2), the parser decodes each `data: ` line
except the `[DONE]` terminator, accumulates `choices[0].delta.content`
together with flagged error-marked `reasoning_content`, and hands the
accumulated text to the extraction stage — Markdown image link first, then
HTML `<video src=...>`, then any bare URL, with the diagnostic fallbacks; in
particular the specification's SSE example yields `http://img/1.png`, and the
three priority levels are witnessed on concrete accumulated texts. -/
theorem sse_accumulate_then_scan :
    (∀ body : String, loads body = none →
      (∀ l ∈ splitLines body, lineOk l = true) →
      parseFlowResponse body = extractStage (joinContents (splitLines body)) body) ∧
    (parseFlowResponse c4Example = "http://img/1.png") ∧
    (extractStage "![a](http://md) <video a src=\x27http://vid\x27> http://bare" ""
      = "http://md") ∧
    (extractStage "<video a src=\x27http://vid\x27> http://bare" "" = "http://vid") ∧
    (extractStage "see http://bare x" "" = "http://bare") := by
  refine ⟨?_, rfl, rfl, rfl, rfl⟩
  intro body hload hall
  have hloop := sseLoop_ok (splitLines body) "" hall
  unfold parseFlowResponse jsonStep
  rw [hload]
  show (match sseLoop (splitLines body) "" with
        | Sum.inl r => r
        | Sum.inr fc => extractStage fc body)
      = extractStage (joinContents (splitLines body)) body
  rw [hloop]
  show extractStage ("" ++ joinContents (splitLines body)) body
      = extractStage (joinContents (splitLines body)) body
  cases hj : joinContents (splitLines body) with
  | mk d =>
    show extractStage (String.mk ([] ++ d)) body = extractStage (String.mk d) body
    rw [List.nil_append]

/-- Witness for C4 at the specification's SSE example body. -/
theorem sse_accumulate_then_scan_witness :
    parseFlowResponse c4Example = extractStage (joinContents (splitLines c4Example)) c4Example :=
  sse_accumulate_then_scan.1 c4Example rfl (by decide)

theorem startsW_append_left (pre s t : String) (h : startsW pre s = true) :
    startsW pre (s ++ t) = true := by
  unfold startsW at *
  show pre.data.isPrefixOf (s.data ++ t.data) = true
  rw [List.isPrefixOf_iff_prefix] at h ⊢
  exact h.trans (List.prefix_append s.data t.data)

theorem strTail_ne (s t : String) (ht : t.data ≠ []) : s ++ t ≠ "" := by
  intro hcon
  have hdata : s.data ++ t.data = [] := congrArg String.data hcon
  exact ht (List.append_eq_nil.mp hdata).2

theorem strMid_ne (s t u : String) (ht : t.data ≠ []) : s ++ t ++ u ≠ "" := by
  intro hcon
  have hdata : s.data ++ t.data ++ u.data = [] := congrArg String.data hcon
  have h2 := (List.append_eq_nil.mp hdata).1
  exact ht (List.append_eq_nil.mp h2).2

theorem attemptOutcome_fail (okSrc tag res : String) (o : Oracle)
    (h : branchFails res o = true) :
    ∃ e, attemptOutcome okSrc tag res o = .inr e ∧ e ≠ "" := by
  unfold branchFails at h
  unfold attemptOutcome
  by_cases h0 : res = ""
  · rw [if_neg (not_not_intro h0)]
    exact ⟨_, rfl, strTail_ne _ _ (by decide)⟩
  · have h0b : (res == "") = false := by
      simp [h0]
    rw [h0b] at h
    simp only [Bool.false_eq_true, if_false] at h
    rw [if_pos h0]
    by_cases h1 : startsW "http" res = true
    · rw [if_pos h1] at h ⊢
      cases hd : o.download with
      | ok st =>
        rw [hd] at h
        dsimp only at h ⊢
        have hst : ¬st = 200 := by
          simpa using h
        rw [if_neg hst]
        exact ⟨_, rfl, strMid_ne _ _ _ (by decide)⟩
      | error e2 =>
        dsimp only
        exact ⟨_, rfl, strMid_ne _ _ _ (by decide)⟩
    · rw [if_neg h1] at h ⊢
      by_cases h2 : startsW "data:image" res = true
      · rw [if_pos h2] at h ⊢
        have hb : (containsC ',' res && o.b64Ok) = false := by
          revert h
          cases containsC ',' res && o.b64Ok <;> simp
        rw [hb]
        simp only [Bool.false_eq_true, if_false]
        exact ⟨_, rfl, by decide⟩
      · rw [if_neg h2]
        exact ⟨_, rfl, strMid_ne _ _ _ (by decide)⟩

theorem attemptOutcome_inl (okSrc tag res : String) (o : Oracle) (r : GenResult)
    (h : attemptOutcome okSrc tag res o = .inl r) :
    r.path = some "downloaded_image.jpeg" ∧ r.source = some okSrc ∧
      (r.url = none ∨ r.url = some res) := by
  unfold attemptOutcome at h
  by_cases h0 : res = ""
  · rw [if_neg (not_not_intro h0)] at h
    exact absurd h (by simp)
  · rw [if_pos h0] at h
    by_cases h1 : startsW "http" res = true
    · rw [if_pos h1] at h
      cases hd : o.download with
      | ok st =>
        rw [hd] at h
        dsimp only at h
        by_cases h2 : st = 200
        · rw [if_pos h2] at h
          injection h with h3
          rw [← h3]
          exact ⟨rfl, rfl, Or.inr rfl⟩
        · rw [if_neg h2] at h
          exact absurd h (by simp)
      | error e2 =>
        rw [hd] at h
        exact absurd h (by simp)
    · rw [if_neg h1] at h
      by_cases h2 : startsW "data:image" res = true
      · rw [if_pos h2] at h
        by_cases h3 : (containsC ',' res && o.b64Ok) = true
        · rw [if_pos h3] at h
          injection h with h4
          rw [← h4]
          exact ⟨rfl, rfl, Or.inl rfl⟩
        · rw [if_neg h3] at h
          exact absurd h (by simp)
      · rw [if_neg h2] at h
        exact absurd h (by simp)

theorem genImage_eq_openai (a : GenArgs) (o : Oracle)
    (h : ((a.provider == some "openai") && truthyS a.flowUrl) = true) :
    genImage a o =
      match attemptOutcome (openaiSrc a o) "OpenAI API" (callFlow2api o.flowCall) o with
      | .inl r => r
      | .inr e => ⟨none, some ("Error: OpenAI API failed (" ++ e ++ ")"), none⟩ := by
  have hpo : (a.provider == some "openai") = true := ((Bool.and_eq_true _ _).mp h).1
  unfold genImage
  rw [if_pos h]
  cases hao : attemptOutcome (openaiSrc a o) "OpenAI API" (callFlow2api o.flowCall) o with
  | inl r => rfl
  | inr e =>
    dsimp only
    rw [if_pos hpo]

theorem genImage_eq_flow (a : GenArgs) (o : Oracle)
    (h1 : ((a.provider == some "openai") && truthyS a.flowUrl) = false)
    (h2 : (useFlowB a && truthyS a.flowUrl && !(a.provider == some "openai")) = true) :
    genImage a o =
      match attemptOutcome (flowSrc a o) "Flow2API" (callFlow2api o.flowCall) o with
      | .inl r => r
      | .inr e =>
        if a.provider == some "flow" then
          ⟨none, some ("Error: Flow2API failed (" ++ e ++ ")"), none⟩
        else officialStep a o (some e) := by
  unfold genImage
  rw [if_neg (by simp [h1])]
  dsimp only
  rw [if_pos h2]
  cases hao : attemptOutcome (flowSrc a o) "Flow2API" (callFlow2api o.flowCall) o with
  | inl r => rfl
  | inr e =>
    dsimp only
    by_cases hpf : (a.provider == some "flow") = true
    · rw [if_pos hpf, if_pos hpf]
    · rw [if_neg hpf, if_neg hpf]

theorem genImage_eq_official (a : GenArgs) (o : Oracle)
    (h1 : ((a.provider == some "openai") && truthyS a.flowUrl) = false)
    (h2 : (useFlowB a && truthyS a.flowUrl && !(a.provider == some "openai")) = false) :
    genImage a o = officialStep a o none := by
  unfold genImage
  rw [if_neg (by simp [h1])]
  dsimp only
  rw [if_neg (by simp [h2])]

theorem officialStep_shape (a : GenArgs) (o : Oracle) (fe : Option String) :
    (∃ e, officialStep a o fe = ⟨none, some e, none⟩ ∧ startsW "Error:" e = true) ∨
    (∃ s, officialStep a o fe = ⟨none, some o.geminiPath, some s⟩ ∧
      o.geminiPath ≠ "" ∧ startsW "Error:" o.geminiPath = false) ∨
    (officialStep a o fe = ⟨none, some o.geminiPath, none⟩ ∧
      (o.geminiPath = "" ∨ startsW "Error:" o.geminiPath = true)) := by
  have herr3 : ∀ e : String,
      startsW "Error:"
        ("Error: Flow2API failed (" ++ e ++ ") and Google API Key is missing.") = true :=
    fun e => startsW_append_left _ _ _ (startsW_append_left _ _ _ (by decide))
  have herr4 : startsW "Error:" "Error: Google API Key is missing." = true := by
    decide
  unfold officialStep
  by_cases hk : (!truthyS a.googleKey) = true
  · rw [if_pos hk]
    cases fe with
    | some e =>
      dsimp only
      by_cases he : e = ""
      · rw [if_neg (not_not_intro he)]
        exact Or.inl ⟨_, rfl, herr4⟩
      · rw [if_pos he]
        exact Or.inl ⟨_, rfl, herr3 e⟩
    | none => exact Or.inl ⟨_, rfl, herr4⟩
  · rw [if_neg hk]
    by_cases hp : (o.geminiPath ≠ "" && !startsW "Error:" o.geminiPath) = true
    · rw [if_pos hp]
      have hp2 := (Bool.and_eq_true _ _).mp hp
      refine Or.inr (Or.inl ⟨_, rfl, ?_, ?_⟩)
      · simpa using hp2.1
      · simpa using hp2.2
    · rw [if_neg hp]
      refine Or.inr (Or.inr ⟨rfl, ?_⟩)
      by_cases hpe : o.geminiPath = ""
      · exact Or.inl hpe
      · right
        by_contra hcon
        exact hp (by simp [hpe, hcon])

/-- Exhaustive shape analysis of the `generate_image` return value. -/
theorem genImage_shape (a : GenArgs) (o : Oracle) :
    (∃ u s, genImage a o = ⟨some u, some "downloaded_image.jpeg", some s⟩) ∨
    (∃ s, genImage a o = ⟨none, some "downloaded_image.jpeg", some s⟩) ∨
    (∃ e, genImage a o = ⟨none, some e, none⟩ ∧ startsW "Error:" e = true) ∨
    (∃ s, genImage a o = ⟨none, some o.geminiPath, some s⟩ ∧
      o.geminiPath ≠ "" ∧ startsW "Error:" o.geminiPath = false) ∨
    (genImage a o = ⟨none, some o.geminiPath, none⟩ ∧
      (o.geminiPath = "" ∨ startsW "Error:" o.geminiPath = true)) := by
  have herr1 : ∀ e : String,
      startsW "Error:" ("Error: OpenAI API failed (" ++ e ++ ")") = true :=
    fun e => startsW_append_left _ _ _ (startsW_append_left _ _ _ (by decide))
  have herr2 : ∀ e : String,
      startsW "Error:" ("Error: Flow2API failed (" ++ e ++ ")") = true :=
    fun e => startsW_append_left _ _ _ (startsW_append_left _ _ _ (by decide))
  by_cases c1 : ((a.provider == some "openai") && truthyS a.flowUrl) = true
  · rw [genImage_eq_openai a o c1]
    cases hao : attemptOutcome (openaiSrc a o) "OpenAI API" (callFlow2api o.flowCall) o with
    | inl r =>
      obtain ⟨hpath, hsrc, hurl⟩ := attemptOutcome_inl _ _ _ _ _ hao
      dsimp only
      rcases hurl with hu | hu
      · refine Or.inr (Or.inl ⟨openaiSrc a o, ?_⟩)
        cases r with
        | mk ru rp rs =>
          simp only at hpath hsrc hu
          rw [hpath, hsrc, hu]
      · refine Or.inl ⟨callFlow2api o.flowCall, openaiSrc a o, ?_⟩
        cases r with
        | mk ru rp rs =>
          simp only at hpath hsrc hu
          rw [hpath, hsrc, hu]
    | inr e =>
      exact Or.inr (Or.inr (Or.inl ⟨_, rfl, herr1 e⟩))
  · have h1 : ((a.provider == some "openai") && truthyS a.flowUrl) = false := by
      revert c1
      cases (a.provider == some "openai") && truthyS a.flowUrl <;> simp
    by_cases c2 : (useFlowB a && truthyS a.flowUrl && !(a.provider == some "openai")) = true
    · rw [genImage_eq_flow a o h1 c2]
      cases hao : attemptOutcome (flowSrc a o) "Flow2API" (callFlow2api o.flowCall) o with
      | inl r =>
        obtain ⟨hpath, hsrc, hurl⟩ := attemptOutcome_inl _ _ _ _ _ hao
        dsimp only
        rcases hurl with hu | hu
        · refine Or.inr (Or.inl ⟨flowSrc a o, ?_⟩)
          cases r with
          | mk ru rp rs =>
            simp only at hpath hsrc hu
            rw [hpath, hsrc, hu]
        · refine Or.inl ⟨callFlow2api o.flowCall, flowSrc a o, ?_⟩
          cases r with
          | mk ru rp rs =>
            simp only at hpath hsrc hu
            rw [hpath, hsrc, hu]
      | inr e =>
        dsimp only
        by_cases hpf : (a.provider == some "flow") = true
        · rw [if_pos hpf]
          exact Or.inr (Or.inr (Or.inl ⟨_, rfl, herr2 e⟩))
        · rw [if_neg hpf]
          rcases officialStep_shape a o (some e) with ⟨e2, he2, hs⟩ | ⟨s, hs2, h3, h4⟩ |
            ⟨hh, hc⟩
          · exact Or.inr (Or.inr (Or.inl ⟨e2, he2, hs⟩))
          · exact Or.inr (Or.inr (Or.inr (Or.inl ⟨s, hs2, h3, h4⟩)))
          · exact Or.inr (Or.inr (Or.inr (Or.inr ⟨hh, hc⟩)))
    · have h2 : (useFlowB a && truthyS a.flowUrl && !(a.provider == some "openai"))
          = false := by
        revert c2
        cases useFlowB a && truthyS a.flowUrl && !(a.provider == some "openai") <;> simp
      rw [genImage_eq_official a o h1 h2]
      rcases officialStep_shape a o none with ⟨e2, he2, hs⟩ | ⟨s, hs2, h3, h4⟩ | ⟨hh, hc⟩
      · exact Or.inr (Or.inr (Or.inl ⟨e2, he2, hs⟩))
      · exact Or.inr (Or.inr (Or.inr (Or.inl ⟨s, hs2, h3, h4⟩)))
      · exact Or.inr (Or.inr (Or.inr (Or.inr ⟨hh, hc⟩)))

/-- Claim C1 counterexample: a URL-returning run reports success with BOTH the
URL and the local path non-null (the URL is eagerly downloaded), and a failing
run carries a non-null `Error:` string in the path slot rather than two nulls. -/
theorem exactly_one_counterexample :
    (genImage cArgsOpenai cOracleMd).url.isSome = true ∧
    (genImage cArgsOpenai cOracleMd).path.isSome = true ∧
    (classifyCore "生图" (genImage cArgsOpenai cOracleMd)).ok = true ∧
    (classifyCore "生图" (genImage cArgsOpenai cOracleJunk)).ok = false ∧
    (genImage cArgsOpenai cOracleJunk).path ≠ none := by
  have hfail : genImage cArgsOpenai cOracleJunk
      = ⟨none, some "Error: OpenAI API failed (OpenAI API error: API Error: junk)", none⟩ :=
    rfl
  refine ⟨rfl, rfl, rfl, rfl, ?_⟩
  rw [hfail]
  simp

/-- Claim C1 (amended): `generate_image` always returns a non-null path slot;
the URL is non-null only together with the downloaded-file path (remote-URL
successes populate both); and on every run that `_generate_core` classifies as
a failure, the URL is null and the path is a non-null string starting with
`"Error:"` — never are both slots null.  (The hypothesis reflects that
`generate_image_gemini` returns a non-empty string on every path of its
source.) -/
theorem genimage_result_shape (a : GenArgs) (o : Oracle) (hg : o.geminiPath ≠ "") :
    (genImage a o).path.isSome = true ∧
    ((genImage a o).url.isSome = true →
      (genImage a o).path = some "downloaded_image.jpeg") ∧
    (∀ act, (classifyCore act (genImage a o)).ok = false →
      (genImage a o).url = none ∧
      ∃ e, (genImage a o).path = some e ∧ startsW "Error:" e = true) := by
  have hsw : startsW "Error:" "downloaded_image.jpeg" = false := by decide
  rcases genImage_shape a o with ⟨u, s, h⟩ | ⟨s, h⟩ | ⟨e, h, he⟩ | ⟨s, h, hne, hnerr⟩ |
    ⟨h, hcond⟩
  · refine ⟨by rw [h]; rfl, fun _ => by rw [h], fun act hf => ?_⟩
    rw [h] at hf
    by_cases hu0 : u = ""
    · subst hu0
      simp [classifyCore, chainStage, truthyS, hsw] at hf
    · simp [classifyCore, chainStage, truthyS, hsw, hu0] at hf
  · refine ⟨by rw [h]; rfl, fun hcon => ?_, fun act hf => ?_⟩
    · rw [h] at hcon
      simp at hcon
    · rw [h] at hf
      simp [classifyCore, chainStage, truthyS, hsw] at hf
  · refine ⟨by rw [h]; rfl, fun hcon => ?_, fun act hf => ?_⟩
    · rw [h] at hcon
      simp at hcon
    · rw [h]
      exact ⟨rfl, e, rfl, he⟩
  · refine ⟨by rw [h]; rfl, fun hcon => ?_, fun act hf => ?_⟩
    · rw [h] at hcon
      simp at hcon
    · rw [h] at hf
      simp [classifyCore, chainStage, truthyS, hne, hnerr] at hf
  · refine ⟨by rw [h]; rfl, fun hcon => ?_, fun act hf => ?_⟩
    · rw [h] at hcon
      simp at hcon
    · rcases hcond with hempty | herr
      · exact absurd hempty hg
      · rw [h]
        exact ⟨rfl, o.geminiPath, rfl, herr⟩

/-- Witness for C1 at a concrete successful run. -/
theorem genimage_result_shape_witness :
    (genImage cArgsOpenai cOracleMd).path.isSome = true ∧
    ((genImage cArgsOpenai cOracleMd).url.isSome = true →
      (genImage cArgsOpenai cOracleMd).path = some "downloaded_image.jpeg") ∧
    (∀ act, (classifyCore act (genImage cArgsOpenai cOracleMd)).ok = false →
      (genImage cArgsOpenai cOracleMd).url = none ∧
      ∃ e, (genImage cArgsOpenai cOracleMd).path = some e ∧ startsW "Error:" e = true) :=
  genimage_result_shape cArgsOpenai cOracleMd (by decide)

/-- Claim C5: an explicitly requested provider that fails returns immediately
with the accumulated error and never consults the official provider (the
result is one fixed `Error:` triple for every value of the gemini oracle);
with no provider requested, a failed Flow attempt falls through to the
official call exactly when a Google API key is present (the result then
carries the gemini outcome), and a missing key is a hard failure, again
independent of the gemini oracle. -/
theorem provider_fallback_policy :
    (∀ (a : GenArgs) (o : Oracle) (u : String),
      a.provider = some "openai" → a.flowUrl = some u → u ≠ "" →
      branchFails (callFlow2api o.flowCall) o = true →
      ∃ e, ∀ gp, genImage a { o with geminiPath := gp }
        = ⟨none, some ("Error: OpenAI API failed (" ++ e ++ ")"), none⟩) ∧
    (∀ (a : GenArgs) (o : Oracle) (u : String),
      a.provider = some "flow" → a.flowUrl = some u → u ≠ "" →
      branchFails (callFlow2api o.flowCall) o = true →
      ∃ e, ∀ gp, genImage a { o with geminiPath := gp }
        = ⟨none, some ("Error: Flow2API failed (" ++ e ++ ")"), none⟩) ∧
    (∀ (a : GenArgs) (o : Oracle) (u k : String),
      a.provider = none → a.flowUrl = some u → u ≠ "" →
      a.googleKey = some k → k ≠ "" →
      branchFails (callFlow2api o.flowCall) o = true →
      (genImage a o).path = some o.geminiPath ∧ (genImage a o).url = none) ∧
    (∀ (a : GenArgs) (o : Oracle) (u : String),
      a.provider = none → a.flowUrl = some u → u ≠ "" →
      a.googleKey = none →
      branchFails (callFlow2api o.flowCall) o = true →
      ∃ e, ∀ gp, genImage a { o with geminiPath := gp }
        = ⟨none,
           some ("Error: Flow2API failed (" ++ e ++ ") and Google API Key is missing."),
           none⟩) := by
  refine ⟨?_, ?_, ?_, ?_⟩
  · intro a o u hp hurl hu hfail
    obtain ⟨e, hae, _⟩ :=
      attemptOutcome_fail (openaiSrc a o) "OpenAI API" (callFlow2api o.flowCall) o hfail
    refine ⟨e, fun gp => ?_⟩
    have ht : truthyS a.flowUrl = true := by
      simp [hurl, truthyS, hu]
    have hc1 : ((a.provider == some "openai") && truthyS a.flowUrl) = true := by
      simp [hp, ht]
    rw [genImage_eq_openai a { o with geminiPath := gp } hc1]
    have hae2 : attemptOutcome (openaiSrc a { o with geminiPath := gp }) "OpenAI API"
        (callFlow2api ({ o with geminiPath := gp } : Oracle).flowCall)
        { o with geminiPath := gp } = .inr e := hae
    rw [hae2]
  · intro a o u hp hurl hu hfail
    obtain ⟨e, hae, _⟩ :=
      attemptOutcome_fail (flowSrc a o) "Flow2API" (callFlow2api o.flowCall) o hfail
    refine ⟨e, fun gp => ?_⟩
    have ht : truthyS a.flowUrl = true := by
      simp [hurl, truthyS, hu]
    have h1 : ((a.provider == some "openai") && truthyS a.flowUrl) = false := by
      simp [hp]
    have h2 : (useFlowB a && truthyS a.flowUrl && !(a.provider == some "openai"))
        = true := by
      simp [useFlowB, hp, ht]
    rw [genImage_eq_flow a { o with geminiPath := gp } h1 h2]
    have hae2 : attemptOutcome (flowSrc a { o with geminiPath := gp }) "Flow2API"
        (callFlow2api ({ o with geminiPath := gp } : Oracle).flowCall)
        { o with geminiPath := gp } = .inr e := hae
    rw [hae2]
    dsimp only
    rw [if_pos (by simp [hp] : (a.provider == some "flow") = true)]
  · intro a o u k hp hurl hu hk hkne hfail
    obtain ⟨e, hae, _⟩ :=
      attemptOutcome_fail (flowSrc a o) "Flow2API" (callFlow2api o.flowCall) o hfail
    have ht : truthyS a.flowUrl = true := by
      simp [hurl, truthyS, hu]
    have h1 : ((a.provider == some "openai") && truthyS a.flowUrl) = false := by
      simp [hp]
    have h2 : (useFlowB a && truthyS a.flowUrl && !(a.provider == some "openai"))
        = true := by
      simp [useFlowB, hp, ht]
    rw [genImage_eq_flow a o h1 h2, hae]
    dsimp only
    rw [if_neg (by simp [hp] : ¬(a.provider == some "flow") = true)]
    have hkt : truthyS a.googleKey = true := by
      simp [hk, truthyS, hkne]
    unfold officialStep
    rw [if_neg (by simp [hkt] : ¬(!truthyS a.googleKey) = true)]
    by_cases hgp : (o.geminiPath ≠ "" && !startsW "Error:" o.geminiPath) = true
    · rw [if_pos hgp]
      exact ⟨rfl, rfl⟩
    · rw [if_neg hgp]
      exact ⟨rfl, rfl⟩
  · intro a o u hp hurl hu hk hfail
    obtain ⟨e, hae, hene⟩ :=
      attemptOutcome_fail (flowSrc a o) "Flow2API" (callFlow2api o.flowCall) o hfail
    refine ⟨e, fun gp => ?_⟩
    have ht : truthyS a.flowUrl = true := by
      simp [hurl, truthyS, hu]
    have h1 : ((a.provider == some "openai") && truthyS a.flowUrl) = false := by
      simp [hp]
    have h2 : (useFlowB a && truthyS a.flowUrl && !(a.provider == some "openai"))
        = true := by
      simp [useFlowB, hp, ht]
    rw [genImage_eq_flow a { o with geminiPath := gp } h1 h2]
    have hae2 : attemptOutcome (flowSrc a { o with geminiPath := gp }) "Flow2API"
        (callFlow2api ({ o with geminiPath := gp } : Oracle).flowCall)
        { o with geminiPath := gp } = .inr e := hae
    rw [hae2]
    dsimp only
    rw [if_neg (by simp [hp] : ¬(a.provider == some "flow") = true)]
    unfold officialStep
    rw [if_pos (by simp [hk, truthyS] : (!truthyS a.googleKey) = true)]
    dsimp only
    rw [if_pos hene]

/-- Witness for C5: an explicit openai request with a failing attempt. -/
theorem provider_fallback_policy_witness :
    ∃ e, ∀ gp, genImage cArgsOpenai { cOracleJunk with geminiPath := gp }
      = ⟨none, some ("Error: OpenAI API failed (" ++ e ++ ")"), none⟩ :=
  provider_fallback_policy.1 cArgsOpenai cOracleJunk "http://api" rfl rfl
    (by decide) (by rfl)

/-- Claim C10: every failure return of the openai and flow branches of
`generate_image` (and the missing-Google-API-key return) has a null URL, a
null source, and a non-null path starting with `"Error:"`; and
`_generate_core` classifies a result as a failure exactly when URL and path
are both null or the path starts with `"Error:"` (stated for results whose
populated slots are non-empty strings, which is every value `generate_image`
produces). -/
theorem failure_shape_and_classification :
    (∀ (a : GenArgs) (o : Oracle) (u : String),
      a.provider = some "openai" → a.flowUrl = some u → u ≠ "" →
      branchFails (callFlow2api o.flowCall) o = true →
      (genImage a o).url = none ∧ (genImage a o).source = none ∧
      ∃ e, (genImage a o).path = some e ∧ startsW "Error:" e = true) ∧
    (∀ (a : GenArgs) (o : Oracle) (u : String),
      a.provider = some "flow" → a.flowUrl = some u → u ≠ "" →
      branchFails (callFlow2api o.flowCall) o = true →
      (genImage a o).url = none ∧ (genImage a o).source = none ∧
      ∃ e, (genImage a o).path = some e ∧ startsW "Error:" e = true) ∧
    (∀ (a : GenArgs) (o : Oracle),
      a.provider = some "official" → a.googleKey = none →
      genImage a o = ⟨none, some "Error: Google API Key is missing.", none⟩) ∧
    (∀ (act : String) (r : GenResult), r.url ≠ some "" → r.path ≠ some "" →
      ((classifyCore act r).ok = false ↔
        (r.url = none ∧ r.path = none) ∨
        ∃ e, r.path = some e ∧ startsW "Error:" e = true)) := by
  have herr1 : ∀ e : String,
      startsW "Error:" ("Error: OpenAI API failed (" ++ e ++ ")") = true :=
    fun e => startsW_append_left _ _ _ (startsW_append_left _ _ _ (by decide))
  have herr2 : ∀ e : String,
      startsW "Error:" ("Error: Flow2API failed (" ++ e ++ ")") = true :=
    fun e => startsW_append_left _ _ _ (startsW_append_left _ _ _ (by decide))
  refine ⟨?_, ?_, ?_, ?_⟩
  · intro a o u hp hurl hu hfail
    obtain ⟨e, hae, _⟩ :=
      attemptOutcome_fail (openaiSrc a o) "OpenAI API" (callFlow2api o.flowCall) o hfail
    have ht : truthyS a.flowUrl = true := by
      simp [hurl, truthyS, hu]
    have hc1 : ((a.provider == some "openai") && truthyS a.flowUrl) = true := by
      simp [hp, ht]
    rw [genImage_eq_openai a o hc1, hae]
    exact ⟨rfl, rfl, _, rfl, herr1 e⟩
  · intro a o u hp hurl hu hfail
    obtain ⟨e, hae, _⟩ :=
      attemptOutcome_fail (flowSrc a o) "Flow2API" (callFlow2api o.flowCall) o hfail
    have ht : truthyS a.flowUrl = true := by
      simp [hurl, truthyS, hu]
    have h1 : ((a.provider == some "openai") && truthyS a.flowUrl) = false := by
      simp [hp]
    have h2 : (useFlowB a && truthyS a.flowUrl && !(a.provider == some "openai"))
        = true := by
      simp [useFlowB, hp, ht]
    rw [genImage_eq_flow a o h1 h2, hae]
    dsimp only
    rw [if_pos (by simp [hp] : (a.provider == some "flow") = true)]
    exact ⟨rfl, rfl, _, rfl, herr2 e⟩
  · intro a o hp hk
    have h1 : ((a.provider == some "openai") && truthyS a.flowUrl) = false := by
      simp [hp]
    have h2 : (useFlowB a && truthyS a.flowUrl && !(a.provider == some "openai"))
        = false := by
      simp [useFlowB, hp]
    rw [genImage_eq_official a o h1 h2]
    unfold officialStep
    rw [if_pos (by simp [hk, truthyS] : (!truthyS a.googleKey) = true)]
  · intro act r hune hpne
    unfold classifyCore chainStage
    constructor
    · intro hf
      split_ifs at hf with h1 h2 h3 h4
      · left
        have h1b := (Bool.and_eq_true _ _).mp h1
        constructor
        · cases hu : r.url with
          | none => rfl
          | some us =>
            exfalso
            have h5 := h1b.1
            rw [hu] at h5
            simp [truthyS] at h5
            exact hune (by rw [hu, h5])
        · cases hpz : r.path with
          | none => rfl
          | some ps =>
            exfalso
            have h5 := h1b.2
            rw [hpz] at h5
            simp [truthyS] at h5
            exact hpne (by rw [hpz, h5])
      · right
        cases hpz : r.path with
        | none =>
          exfalso
          rw [hpz] at h2
          simp at h2
        | some ps =>
          rw [hpz] at h2
          refine ⟨ps, rfl, ?_⟩
          simpa using ((Bool.and_eq_true _ _).mp h2).2
      · rw [Bool.not_eq_true] at h3 h4
        exact absurd (by rw [h3, h4]; rfl) h1
    · rintro (⟨hu, hpz⟩ | ⟨e, hpz, he⟩)
      · rw [if_pos (by simp [hu, hpz, truthyS])]
      · by_cases h1 : (!truthyS r.url && !truthyS r.path) = true
        · rw [if_pos h1]
        · rw [if_neg h1]
          have het : ¬e = "" := by
            intro hcon
            exact hpne (by rw [hpz, hcon])
          rw [if_pos (by rw [hpz]; simp [het, he])]

/-- Witness for C10 at a concrete failing openai run and a concrete
classification instance. -/
theorem failure_shape_and_classification_witness :
    ((genImage cArgsOpenai cOracleJunk).url = none ∧
     (genImage cArgsOpenai cOracleJunk).source = none ∧
     ∃ e, (genImage cArgsOpenai cOracleJunk).path = some e ∧
       startsW "Error:" e = true) ∧
    ((classifyCore "生图" ⟨none, some "Error: boom", none⟩).ok = false ↔
      ((none : Option String) = none ∧ (some "Error: boom" : Option String) = none) ∨
      ∃ e, (some "Error: boom" : Option String) = some e ∧ startsW "Error:" e = true) :=
  ⟨failure_shape_and_classification.1 cArgsOpenai cOracleJunk "http://api" rfl rfl
      (by decide) (by rfl),
   failure_shape_and_classification.2.2.2 "生图" ⟨none, some "Error: boom", none⟩
      (by decide) (by decide)⟩

end Zenith
